/-
Verification of the deterministic entity-selection and guarded feature-mutation
engine of the Fusion RPC add-in (`FusionRPCAddIn/commands/`).

The Python sources are shallowly embedded below:
  * geometric entities (faces, edges, bodies, sketches, features) become
    records carrying exactly the attributes the code reads, with `Option`
    fields wherever the code tolerates a missing or failing host attribute;
  * numeric host values are modelled as rationals (`ℚ`); the host's
    length-unit conversion (`convert_mm`) and the float-sqrt-based vector
    normalisation (`_normalize_vector`) are deterministic host functions and
    are passed in as explicit function parameters `cf` / `nf`;
  * each command handler (`handle(request, context)`) becomes a pure function
    of the request, the document snapshot and a `Host` record that fixes the
    outcome of every host call the handler makes (apply success/failure,
    recompute success/failure, wall-clock timings, the post-apply document);
    mutating host calls performed by the handler are recorded in an
    `actions` log on the response.
-/
import Mathlib

namespace FusionCore

/-- A 3D point / vector, as read from the host (internal length units). -/
abbrev Point : Type := ℚ × ℚ × ℚ

/-- Dot product of a host vector with an axis unit vector
    (`_vector_dot` / the inline dot product in `_select_face`). -/
def dot (v a : Point) : ℚ := v.1 * a.1 + v.2.1 * a.2.1 + v.2.2 * a.2.2

/-- Signed axes accepted by `normal_closest` selectors (`_axis_vector`). -/
inductive Axis | pX | nX | pY | nY | pZ | nZ
deriving DecidableEq, Repr

/-- `_axis_vector`: the unit vector of a signed axis name. -/
def axisVector : Axis → Point
  | .pX => (1, 0, 0)
  | .nX => (-1, 0, 0)
  | .pY => (0, 1, 0)
  | .nY => (0, -1, 0)
  | .pZ => (0, 0, 1)
  | .nZ => (0, 0, -1)

/-- Parse a signed axis name (the membership test
    `axis in ("+X","-X","+Y","-Y","+Z","-Z")`). -/
def axisOfString : String → Option Axis
  | "+X" => some .pX
  | "-X" => some .nX
  | "+Y" => some .pY
  | "-Y" => some .nY
  | "+Z" => some .pZ
  | "-Z" => some .nZ
  | _ => none

/-- Unsigned coordinate axes used by `max_bbox_*` / `min_bbox_*` selectors. -/
inductive SAxis | x | y | z
deriving DecidableEq, Repr

/-- The membership test `axis in ("x","y","z")` after lowercasing. -/
def sAxisOfString : String → Option SAxis
  | "x" => some .x
  | "y" => some .y
  | "z" => some .z
  | _ => none

/-- Coordinate of a point along an unsigned axis (`bbox["max"][axis]`). -/
def coordAlong (p : Point) : SAxis → ℚ
  | .x => p.1
  | .y => p.2.1
  | .z => p.2.2

/-- A BRep face, carrying the attributes `_select_face` reads.  `Option`
    encodes host attributes whose access can fail or yield `None`:
    `centroid` (`face.centroid`), `area` (`face.area`), `entityId`
    (`_entity_id(face)`), `normal` (`face.geometry.normal`) and `bbox`
    (`_bbox_mm`'s underlying min/max points, internal units). -/
structure Face where
  planar : Bool
  centroid : Option Point
  area : Option ℚ
  entityId : Option String
  normal : Option Point
  bbox : Option (Point × Point)
deriving DecidableEq, Repr

/-- A BRep edge, carrying the attributes `_select_edge` reads. -/
structure Edge where
  entityId : Option String
  length : Option ℚ
  midpoint : Option Point
  direction : Option Point
deriving DecidableEq, Repr

/-- A BRep body: identity, visibility/solid flags, its faces and edges, and
    the measurement attributes `_body_measurement` reads (`worldBoundingBox`
    and `physicalProperties.volume`, internal units).  The vertex collection
    is only ever counted, so it is kept as a count. -/
structure Body where
  name : String
  entityId : Option String
  isSolid : Bool
  isVisible : Bool
  faces : List Face
  edges : List Edge
  vertices : Nat
  bbox : Option (Point × Point)
  volume : Option ℚ
deriving DecidableEq, Repr

/-- A sketch as `extrude_profile` / `revolve_feature` see it: an identity
    and its profiles, each profile the set of entity ids of its curves
    (what `_find_profile` collects). -/
structure Sketch where
  entityId : Option String
  profiles : List (List String)
deriving DecidableEq, Repr

/-- A timeline feature as `_find_feature_by_id` sees it. -/
structure Feat where
  entityId : Option String
  typeName : String
deriving DecidableEq, Repr

/-- The design document snapshot a handler reads before mutating. -/
structure Doc where
  bodies : List Body
  sketches : List Sketch
  features : List Feat
deriving DecidableEq, Repr

/-- `_list_visible_bodies`: the visible solid bodies, in enumeration order. -/
def listVisibleBodies (bodies : List Body) : List Body :=
  bodies.filter (fun b => b.isSolid && b.isVisible)

/-- Python truthiness of an optional string (`if body_name:`):
    `None` and `""` are falsy. -/
def truthyS : Option String → Bool
  | none => false
  | some s => s ≠ ""

/-- `_resolve_body`: with a truthy name, the first visible solid body with
    exactly that name; otherwise the unique visible solid body, if there is
    exactly one.  Also returns the visible-body pool. -/
def resolveBody (bodies : List Body) (bodyName : Option String) :
    Option Body × List Body :=
  let vis := listVisibleBodies bodies
  if truthyS bodyName then
    (vis.find? (fun b => b.name = bodyName.getD ""), vis)
  else if vis.length = 1 then (vis.head?, vis)
  else (none, vis)

/-- Aggregate face/edge/vertex counts (`_total_counts` over `_body_counts`,
    with `_collection_count` giving the collection sizes). -/
structure Counts where
  faces : Nat
  edges : Nat
  vertices : Nat
deriving DecidableEq, Repr

/-- `_body_counts`. -/
def bodyCounts (b : Body) : Counts :=
  ⟨b.faces.length, b.edges.length, b.vertices⟩

/-- `_total_counts`. -/
def totalCounts (bodies : List Body) : Counts :=
  bodies.foldl
    (fun t b => ⟨t.faces + b.faces.length, t.edges + b.edges.length,
                 t.vertices + b.vertices⟩)
    ⟨0, 0, 0⟩

/-- `_body_key`: the identity token when it is truthy (`if entity:` — a
    missing token and the empty string are both falsy in Python), else the
    body name. -/
def bodyKey (b : Body) : Sum String String :=
  match b.entityId with
  | some i => if i ≠ "" then Sum.inl i else Sum.inr b.name
  | none => Sum.inr b.name

/-! ### Selector parsing (`_parse_face_selector`, `_parse_edge_selector`) -/

/-- A parsed face selector (the dicts built by `_parse_face_selector`). -/
inductive FaceSel
  | largestPlanar
  | largestArea
  | normalClosest (axis : Axis)
  | maxBBox (axis : SAxis)
  | minBBox (axis : SAxis)
deriving DecidableEq, Repr

/-- `selector.split("_")[-1].lower()`. -/
def lastUnderscorePiece (s : String) : String :=
  ((s.splitOn "_").getLastD "").toLower

/-- `_parse_face_selector` (the `_selection_helpers` version used by the
    handlers).  A prefix match whose axis fails validation falls through to
    the later checks, exactly as the Python `if` chain does. -/
def parseFaceSelector (s : String) : Option FaceSel :=
  if s = "largest_planar" then some .largestPlanar
  else if s = "largest_area" then some .largestArea
  else
    match (if s.startsWith "normal_closest:" then
             (axisOfString ((s.drop 15).trim)).map FaceSel.normalClosest
           else none) with
    | some v => some v
    | none =>
      match (if s.startsWith "max_bbox_" then
               (sAxisOfString (lastUnderscorePiece s)).map FaceSel.maxBBox
             else none) with
      | some v => some v
      | none =>
        if s.startsWith "min_bbox_" then
          (sAxisOfString (lastUnderscorePiece s)).map FaceSel.minBBox
        else none

/-- A parsed edge selector (the dicts built by `_parse_edge_selector`). -/
inductive EdgeSel
  | longestEdge
  | normalClosest (axis : Axis)
  | closestToPoint
deriving DecidableEq, Repr

/-- `_parse_edge_selector`. -/
def parseEdgeSelector (s : String) : Option EdgeSel :=
  if s = "longest_edge" then some .longestEdge
  else
    match (if s.startsWith "normal_closest:" then
             (axisOfString ((s.drop 15).trim)).map EdgeSel.normalClosest
           else none) with
    | some v => some v
    | none =>
      if s = "closest_to_point" then some .closestToPoint else none

/-! ### Deterministic winner selection

`_select_face` / `_select_edge` build a candidate list, stable-sort it by a
tie-break key and return `candidates[0]`.  The head of a stable sort is the
first element attaining the minimum of the key, which the recursion
`pickFirstMin` computes directly. -/

/-- The sort key type of `_tie_key` in `_select_face`:
    `(-score, -secondary, position tuple, identity token)` compared
    lexicographically, exactly as Python compares tuples. -/
abbrev TieKey : Type := ℚ ×ₗ ℚ ×ₗ ℚ ×ₗ ℚ ×ₗ ℚ ×ₗ String

/-- Build a tie-break key. -/
def mkKey (score sec cx cy cz : ℚ) (tok : String) : TieKey :=
  toLex (score, toLex (sec, toLex (cx, toLex (cy, toLex (cz, tok)))))

/-- The identity-token component of a key. -/
def keyTok (k : TieKey) : String :=
  (ofLex (ofLex (ofLex (ofLex (ofLex k).2).2).2).2).2

/-- `candidates.sort(key=...); candidates[0]` for a non-empty list: the first
    element attaining the minimal key. -/
def pickFirstMin {α K : Type} [LinearOrder K] (key : α → K) :
    α → List α → α
  | b, [] => b
  | b, c :: cs => pickFirstMin key (if key c < key b then c else b) cs

/-- The head of the stable sort of `l` by `key`, or `none` when empty. -/
def sortWinner {α K : Type} [LinearOrder K] (key : α → K) :
    List α → Option α
  | [] => none
  | b :: cs => some (pickFirstMin key b cs)

/-- A face candidate dict built inside `_select_face`. -/
structure FaceCand where
  face : Face
  score : ℚ
  areaMm2 : Option ℚ
  centroidT : Point
  faceId : String
  normalOut : Option Point
deriving DecidableEq, Repr

/-- `_tie_key` for face candidates. -/
def faceKey (c : FaceCand) : TieKey :=
  mkKey (-c.score) (-(c.areaMm2.getD (-1)))
    c.centroidT.1 c.centroidT.2.1 c.centroidT.2.2 c.faceId

/-- The two selector kinds that skip non-planar faces
    (the first two `continue`s of the loop in `_select_face`). -/
def needsPlanar : FaceSel → Bool
  | .largestPlanar => true
  | .normalClosest _ => true
  | _ => false

/-- One iteration of the candidate loop in
    `_selection_helpers._select_face`: `none` on any `continue`.
    `cf` is the host's `convert_mm` conversion; `nf` the host's
    `_normalize_vector` (which may return `None` on a degenerate vector). -/
def mkFaceCand (sel : FaceSel) (cf : ℚ → ℚ) (nf : Point → Option Point)
    (f : Face) : Option FaceCand :=
  if needsPlanar sel ∧ ¬f.planar then
    none
  else
    match f.centroid with
    | none => none
    | some ct =>
      let areaMm2 := f.area.map (fun a => a * (cf 1) * (cf 1))
      let fid := f.entityId.getD ""
      let ctT : Point := (cf ct.1, cf ct.2.1, cf ct.2.2)
      match sel with
      | .largestPlanar | .largestArea =>
        match areaMm2 with
        | none => none
        | some a => some ⟨f, a, areaMm2, ctT, fid, none⟩
      | .normalClosest ax =>
        match f.normal with
        | none => none
        | some nv =>
          some ⟨f, dot nv (axisVector ax), areaMm2, ctT, fid, nf nv⟩
      | .maxBBox ax =>
        match f.bbox with
        | none => none
        | some (_, mx) => some ⟨f, cf (coordAlong mx ax), areaMm2, ctT, fid, none⟩
      | .minBBox ax =>
        match f.bbox with
        | none => none
        | some (mn, _) =>
          some ⟨f, -(cf (coordAlong mn ax)), areaMm2, ctT, fid, none⟩

/-- The candidate list `_select_face` accumulates. -/
def faceCands (sel : FaceSel) (cf : ℚ → ℚ) (nf : Point → Option Point)
    (faces : List Face) : List FaceCand :=
  faces.filterMap (mkFaceCand sel cf nf)

/-- `_selection_helpers._select_face`: the winning candidate (if any) and the
    number of candidates considered. -/
def selectFace (sel : FaceSel) (cf : ℚ → ℚ) (nf : Point → Option Point)
    (faces : List Face) : Option FaceCand × Nat :=
  (sortWinner faceKey (faceCands sel cf nf faces),
   (faceCands sel cf nf faces).length)

/-- An edge candidate dict built inside `_select_edge`. -/
structure EdgeCand where
  edge : Edge
  score : ℚ
  lengthMm : Option ℚ
  midpointT : Point
  edgeId : String
deriving DecidableEq, Repr

/-- `_tie_key` for edge candidates. -/
def edgeKey (c : EdgeCand) : TieKey :=
  mkKey (-c.score) (-(c.lengthMm.getD (-1)))
    c.midpointT.1 c.midpointT.2.1 c.midpointT.2.2 c.edgeId

/-- One iteration of the candidate loop in `_select_edge`. -/
def mkEdgeCand (sel : EdgeSel) (cf : ℚ → ℚ) (ptMm : Option Point)
    (e : Edge) : Option EdgeCand :=
  let eid := e.entityId.getD ""
  let lengthMm := e.length.map (fun l => l * cf 1)
  match e.midpoint with
  | none => none
  | some mp =>
    let mpT : Point := (cf mp.1, cf mp.2.1, cf mp.2.2)
    match sel with
    | .longestEdge =>
      match lengthMm with
      | none => none
      | some l => some ⟨e, l, lengthMm, mpT, eid⟩
    | .normalClosest ax =>
      match e.direction with
      | none => none
      | some d => some ⟨e, dot d (axisVector ax), lengthMm, mpT, eid⟩
    | .closestToPoint =>
      match ptMm with
      | none => none
      | some p =>
        let dx := mpT.1 - p.1
        let dy := mpT.2.1 - p.2.1
        let dz := mpT.2.2 - p.2.2
        some ⟨e, -(dx * dx + dy * dy + dz * dz), lengthMm, mpT, eid⟩

/-- The candidate list `_select_edge` accumulates. -/
def edgeCands (sel : EdgeSel) (cf : ℚ → ℚ) (ptMm : Option Point)
    (edges : List Edge) : List EdgeCand :=
  edges.filterMap (mkEdgeCand sel cf ptMm)

/-- `_select_edge`. -/
def selectEdge (sel : EdgeSel) (cf : ℚ → ℚ) (ptMm : Option Point)
    (edges : List Edge) : Option EdgeCand × Nat :=
  (sortWinner edgeKey (edgeCands sel cf ptMm edges),
   (edgeCands sel cf ptMm edges).length)

/-! ### Measurement (`_bbox_mm`, `_volume_mm3`, `_body_measurement`) -/

/-- A millimetre bounding box (`_bbox_mm`'s result dict). -/
structure BBoxMm where
  min : Point
  max : Point
  size : Point
deriving DecidableEq, Repr

/-- `_bbox_mm` applied to a body whose bounding box is available:
    convert min and max pointwise, size is the componentwise difference. -/
def mkBBoxMm (cf : ℚ → ℚ) (bb : Point × Point) : BBoxMm :=
  let mn : Point := (cf bb.1.1, cf bb.1.2.1, cf bb.1.2.2)
  let mx : Point := (cf bb.2.1, cf bb.2.2.1, cf bb.2.2.2)
  ⟨mn, mx, (mx.1 - mn.1, mx.2.1 - mn.2.1, mx.2.2 - mn.2.2)⟩

/-- `_body_measurement`'s result dict; missing metrics stay `none`. -/
structure Measurement where
  bodyName : Option String
  bboxMm : Option BBoxMm
  volumeMm3 : Option ℚ
  counts : Counts
deriving DecidableEq, Repr

/-- `_body_measurement`: name, bbox in mm, volume scaled by the cube of the
    length factor `convert_mm(units_mgr, 1.0)`, and entity counts. -/
def bodyMeasurement (cf : ℚ → ℚ) (b : Body) : Measurement :=
  ⟨some b.name, b.bbox.map (mkBBoxMm cf), b.volume.map (fun v => v * (cf 1) * (cf 1) * (cf 1)),
   bodyCounts b⟩

/-! ### Guardrails -/

/-- One command's guardrail constants (`MAX_APPLY_MS`, `MAX_FACE_DELTA`,
    `MAX_EDGE_DELTA`, `MAX_BODY_DELTA`).  `msText` is the text Python's
    f-string prints for the float constant `MAX_APPLY_MS`. -/
structure GuardrailThresholds where
  maxApplyMs : ℚ
  msText : String
  maxFaceDelta : Int
  maxEdgeDelta : Int
  maxBodyDelta : Int
deriving DecidableEq, Repr

/-- Which guardrail bound was breached. -/
inductive GErr | time | face | edge | body
deriving DecidableEq, Repr

/-- The guardrail `if`/`elif` chain shared verbatim by every mutating
    command: elapsed apply time, then face delta, then edge delta, then body
    delta; the first breached bound wins and later bounds are not examined. -/
def guardrailCheck (t : GuardrailThresholds) (timingMs : ℚ)
    (faceDelta edgeDelta bodyDelta : Int) : Option GErr :=
  if timingMs > t.maxApplyMs then some .time
  else if faceDelta > t.maxFaceDelta then some .face
  else if edgeDelta > t.maxEdgeDelta then some .edge
  else if bodyDelta > t.maxBodyDelta then some .body
  else none

/-- The guardrail error strings (the f-strings in each handler). -/
def gErrString (t : GuardrailThresholds) : GErr → String
  | .time => "Apply exceeded MAX_APPLY_MS (" ++ t.msText ++ " ms)"
  | .face => "face_count_delta exceeded MAX_FACE_DELTA (" ++
      toString t.maxFaceDelta ++ ")"
  | .edge => "edge_count_delta exceeded MAX_EDGE_DELTA (" ++
      toString t.maxEdgeDelta ++ ")"
  | .body => "body_count_delta exceeded MAX_BODY_DELTA (" ++
      toString t.maxBodyDelta ++ ")"

/-- `extrude_feature.py` constants. -/
def extrudeThresholds : GuardrailThresholds := ⟨1500, "1500.0", 150, 300, 1⟩

/-- `extrude_profile.py` constants. -/
def profileThresholds : GuardrailThresholds := ⟨5000, "5000.0", 300, 600, 1⟩

/-- `fillet_feature.py` constants. -/
def filletThresholds : GuardrailThresholds := ⟨5000, "5000.0", 300, 600, 1⟩

/-- `hole_feature.py` constants. -/
def holeThresholds : GuardrailThresholds := ⟨5000, "5000.0", 200, 400, 1⟩

/-- `shell_feature.py` constants. -/
def shellThresholds : GuardrailThresholds := ⟨5000, "5000.0", 500, 1000, 1⟩

/-- `pattern_feature.py` constants. -/
def patternThresholds : GuardrailThresholds := ⟨5000, "5000.0", 500, 1000, 20⟩

/-- `mirror_feature.py` constants. -/
def mirrorThresholds : GuardrailThresholds := ⟨1500, "1500.0", 400, 800, 10⟩

/-- `revolve_feature.py` constants. -/
def revolveThresholds : GuardrailThresholds := ⟨1500, "1500.0", 400, 800, 5⟩

/-! ### Handler execution model

A handler's mutating host calls are recorded as actions; the outcome of each
host call (success or raised exception, timings, the post-apply document) is
fixed by a `Host` record, so a handler is a pure function of request,
document and host behaviour. -/

/-- A mutating host call performed by a handler. -/
inductive HostAction
  | applyFeature
  | computeAll (ok : Bool)
  | deleteFeature (ok : Bool)
  | createConstructionAxis
deriving DecidableEq, Repr

/-- Is this action the rollback delete of the created feature? -/
def isDelete : HostAction → Bool
  | .deleteFeature _ => true
  | _ => false

/-- The `apply` block of a success response:
    `{"feature": {...}, "compute": {"ran": ...}, "timing_ms": ...}`. -/
structure ApplyInfo where
  featId : Option String
  featName : Option String
  computeRan : Bool
  timingMs : ℚ
deriving DecidableEq, Repr

/-- The `data` payload shapes of the non-extrude handlers: plan-only (error
    paths after planning), preview, or plan plus apply info. -/
inductive GenData (P : Type)
  | planOnly (plan : P)
  | previewData (plan : P)
  | applied (plan : P) (info : ApplyInfo)
deriving DecidableEq, Repr

/-- A handler response: `ok`/`error`, the `data` payload, the `candidates`
    list some error responses carry, and the log of mutating host calls. -/
structure Resp (D : Type) where
  ok : Bool
  error : Option String
  data : Option D
  candidates : Option (List String)
  actions : List HostAction
deriving DecidableEq, Repr

/-- The host-visible part of a response (everything except the action log);
    used to state that rollback failures are swallowed. -/
def respCore {D : Type} (r : Resp D) :
    Bool × Option String × Option D × Option (List String) :=
  (r.ok, r.error, r.data, r.candidates)

/-- A validation-failure response: `{"ok": False, "error": msg}`. -/
def errResp {D : Type} (msg : String) : Resp D :=
  ⟨false, some msg, none, none, []⟩

/-- A validation-failure response that also carries `candidates`. -/
def errRespC {D : Type} (msg : String) (cands : List String) : Resp D :=
  ⟨false, some msg, none, some cands, []⟩

/-- `sorted([b.name for b in bodies])`. -/
def sortedNames (bodies : List Body) : List String :=
  (bodies.map Body.name).mergeSort (fun a b => a ≤ b)

/-- Python's `repr` of a list of strings, as f-strings interpolate it. -/
def pyStrListRepr (l : List String) : String :=
  "[" ++ String.intercalate ", " (l.map (fun s => "\x27" ++ s ++ "\x27")) ++ "]"

/-- The three body-resolution failure responses shared by the handlers
    (`Body not found` / `No visible solid body found.` /
    `Multiple visible bodies; specify body_name.`). -/
def bodyFailResp {D : Type} (bodyName : Option String) (vis : List Body) :
    Resp D :=
  let cands := sortedNames vis
  if truthyS bodyName then
    errRespC ("Body not found: " ++ bodyName.getD "" ++ ". Candidates: " ++
      pyStrListRepr cands) cands
  else if cands.isEmpty then
    errRespC "No visible solid body found." []
  else
    errRespC "Multiple visible bodies; specify body_name." cands

/-- Outcomes of the host calls a handler makes.  `sourceAfter` is the state
    of the resolved source body object once the apply has mutated it (the
    Python handler keeps a live reference); `axisCreateFails` covers
    `revolve_feature`'s construction-axis creation. -/
structure Host where
  applyFails : Bool
  excMsg : String
  computeFails : Bool
  timingMs : ℚ
  timingGuardMs : ℚ
  afterBodies : List Body
  sourceAfter : Body
  featId : Option String
  featName : Option String
  deleteFails : Bool
  rollbackComputeFails : Bool
  axisCreateFails : Bool
deriving DecidableEq, Repr

/-- Shape parameters distinguishing the guarded apply phases of the
    non-extrude commands. -/
structure GenConfig where
  t : GuardrailThresholds
  failPrefix : String
  computeGated : Bool
  rollbackComputeGated : Bool
  recheckTiming : Bool
deriving DecidableEq, Repr

/-- `fillet_feature.py`: compute gated on the request's `compute` flag;
    rollback recompute unconditional. -/
def filletConfig : GenConfig :=
  ⟨filletThresholds, "Fillet failed: ", true, false, false⟩

/-- `hole_feature.py`: compute unconditional; the guardrail re-reads the
    clock instead of reusing `timing_ms`. -/
def holeConfig : GenConfig :=
  ⟨holeThresholds, "Hole feature failed: ", false, false, true⟩

/-- `extrude_profile.py`: compute and rollback recompute both gated. -/
def profileConfig : GenConfig :=
  ⟨profileThresholds, "Extrude profile failed: ", true, true, false⟩

/-- `shell_feature.py`. -/
def shellConfig : GenConfig :=
  ⟨shellThresholds, "Shell failed: ", false, false, false⟩

/-- `mirror_feature.py`. -/
def mirrorConfig : GenConfig :=
  ⟨mirrorThresholds, "Mirror failed: ", false, false, false⟩

/-- `pattern_feature.py`, rectangular branch. -/
def patternRectConfig : GenConfig :=
  ⟨patternThresholds, "Rectangular pattern failed: ", false, false, false⟩

/-- `pattern_feature.py`, circular branch. -/
def patternCircConfig : GenConfig :=
  ⟨patternThresholds, "Circular pattern failed: ", false, false, false⟩

/-- `revolve_feature.py`. -/
def revolveConfig : GenConfig :=
  ⟨revolveThresholds, "Revolve failed: ", false, false, false⟩

/-- The before/after face-count delta a guarded apply phase computes. -/
def gFaceDelta (doc : Doc) (host : Host) : Int :=
  (totalCounts (listVisibleBodies host.afterBodies)).faces -
    (totalCounts (listVisibleBodies doc.bodies)).faces

/-- The before/after edge-count delta. -/
def gEdgeDelta (doc : Doc) (host : Host) : Int :=
  (totalCounts (listVisibleBodies host.afterBodies)).edges -
    (totalCounts (listVisibleBodies doc.bodies)).edges

/-- The before/after visible-body-count delta. -/
def gBodyDelta (doc : Doc) (host : Host) : Int :=
  (listVisibleBodies host.afterBodies).length -
    (listVisibleBodies doc.bodies).length

/-- The shared post-plan phase of fillet/hole/extrude-profile/shell/mirror/
    pattern/revolve: apply (raising aborts with the command's failure
    message), best-effort recompute (a failure is swallowed and recorded as
    `compute.ran = false`), snapshot deltas, guardrail chain, and on breach a
    best-effort rollback whose own failures are swallowed. -/
def genApply {P : Type} (cfg : GenConfig) (computeFlag : Bool) (plan : P)
    (doc : Doc) (host : Host) : Resp (GenData P) :=
  if host.applyFails then
    ⟨false, some (cfg.failPrefix ++ host.excMsg), some (.planOnly plan), none,
     [.applyFeature]⟩
  else
    let doCompute := !cfg.computeGated || computeFlag
    let computeRan := doCompute && !host.computeFails
    let baseActs := [HostAction.applyFeature] ++
      (if doCompute then [HostAction.computeAll (!host.computeFails)] else [])
    let guardTiming := if cfg.recheckTiming then host.timingGuardMs
                       else host.timingMs
    match guardrailCheck cfg.t guardTiming (gFaceDelta doc host)
        (gEdgeDelta doc host) (gBodyDelta doc host) with
    | some e =>
      let delOk := !host.deleteFails
      let rbActs := [HostAction.deleteFeature delOk] ++
        (if delOk && (!cfg.rollbackComputeGated || computeFlag) then
          [HostAction.computeAll (!host.rollbackComputeFails)] else [])
      ⟨false, some (gErrString cfg.t e), some (.planOnly plan), none,
       baseActs ++ rbActs⟩
    | none =>
      ⟨true, none,
       some (.applied plan ⟨host.featId, host.featName, computeRan,
         host.timingMs⟩),
       none, baseActs⟩

/-! ### `extrude_feature.py` -/

/-- The validated extrude plan dict. -/
structure ExtrudePlan where
  bodyName : String
  faceId : String
  selectorStr : String
  centroidMm : Point
  normal : Option Point
  areaMm2 : Option ℚ
  operation : String
  distanceMm : ℚ
  direction : String
deriving DecidableEq, Repr

/-- The `measure_after` dict: the measured body, plus the source body's own
    measurement when a `new_body` operation succeeded. -/
structure MeasureAfter where
  base : Measurement
  sourceBody : Option Measurement
deriving DecidableEq, Repr

/-- The `verify` block of an extrude success response. -/
structure Verify where
  tolMm : ℚ
  tolPct : ℚ
  requiredPass : Bool
  warnings : List String
  metricsAttempted : List String
deriving DecidableEq, Repr

/-- The `data` payload shapes of `extrude_feature.handle`. -/
inductive ExtrudeData
  | planOnly (plan : ExtrudePlan)
  | previewData (plan : ExtrudePlan) (measureBefore : Measurement)
      (candFaces : Nat)
  | fullData (plan : ExtrudePlan) (info : ApplyInfo) (mb : Measurement)
      (ma : MeasureAfter) (v : Verify) (candFaces : Nat)
deriving DecidableEq, Repr

/-- An `extrude_feature` request, after `request.get` defaulting.  A `none`
    in `distanceMm` stands for a missing or non-numeric `distance_mm`
    (`float()` raising). -/
structure ExtrudeReq where
  bodyName : Option String
  faceSelector : String
  operation : String
  distanceMm : Option ℚ
  direction : String
  preview : Bool
  compute : Bool
  units : String
  tolMm : ℚ
  tolPct : ℚ
deriving DecidableEq, Repr

/-- The verification block computed at the end of `extrude_feature.handle`. -/
def mkVerify (op : String) (newBody : Bool) (mb : Measurement)
    (ma : MeasureAfter) (tolMm tolPct : ℚ) : Verify :=
  let hasB := fun (m : Measurement) => m.bboxMm.isSome
  let hasV := fun (m : Measurement) => m.volumeMm3.isSome
  let requireVolume := op = "join" || op = "cut" || op = "intersect"
  let bboxBad := !hasB mb || !hasB ma.base
  let volBad := !hasV mb || !hasV ma.base
  let srcMissing := newBody && ma.sourceBody.isNone
  let nbBboxBad := newBody && !hasB ma.base
  let nbVolBad := newBody && (requireVolume && !hasV ma.base)
  let warnings :=
    (if bboxBad then ["bbox measurement missing"] else []) ++
    (if requireVolume && volBad then ["volume measurement missing"]
     else if volBad then ["volume measurement missing (advisory)"] else []) ++
    (if srcMissing then
      ["source_body measurement missing for new_body operation"] else []) ++
    (if nbBboxBad then ["new_body bbox missing"] else []) ++
    (if nbVolBad then ["new_body volume missing"] else []) ++
    ["face_span not computed (no selector provided)"]
  let requiredPass := !bboxBad && !(requireVolume && volBad) && !srcMissing &&
    !nbBboxBad && !nbVolBad
  ⟨tolMm, tolPct, requiredPass, warnings, ["bbox", "volume"]⟩

/-- The after-bodies whose `_body_key` does not occur among the
    before-bodies (the `new_candidates` diff for `new_body` operations). -/
def newBodyCandidates (beforeVisible afterVisible : List Body) : List Body :=
  let beforeKeys := beforeVisible.map bodyKey
  afterVisible.filter (fun b => !(beforeKeys.contains (bodyKey b)))

/-- The best-effort rollback of `extrude_feature.handle`:
    `feature.deleteMe()`, then `design.computeAll()` when the delete
    succeeded and `compute` is set; every failure is swallowed. -/
def extrudeRollbackActs (computeFlag : Bool) (host : Host) : List HostAction :=
  let delOk := !host.deleteFails
  [HostAction.deleteFeature delOk] ++
    (if delOk && computeFlag then
      [HostAction.computeAll (!host.rollbackComputeFails)] else [])

/-- The success response assembly of `extrude_feature.handle` (measure the
    affected body — or the disambiguated new body with the source body
    attached — build the verify block and the full payload). -/
def extrudeSuccess (req : ExtrudeReq) (cf : ℚ → ℚ) (plan : ExtrudePlan)
    (measureBefore : Measurement) (candFaces : Nat) (host : Host)
    (newBody : Option Body) (baseActs : List HostAction) : Resp ExtrudeData :=
  let sourceMeas := bodyMeasurement cf host.sourceAfter
  let ma : MeasureAfter :=
    match newBody with
    | none => ⟨sourceMeas, none⟩
    | some nb => ⟨bodyMeasurement cf nb, some sourceMeas⟩
  let v := mkVerify req.operation newBody.isSome measureBefore ma
    req.tolMm req.tolPct
  ⟨true, none,
   some (.fullData plan
     ⟨host.featId, host.featName, req.compute, host.timingMs⟩
     measureBefore ma v candFaces),
   none, baseActs⟩

/-- The post-plan phase of `extrude_feature.handle`: snapshot, apply, gated
    recompute (whose failure raises and is treated as an apply failure),
    guardrail chain with rollback, `new_body` disambiguation with rollback,
    then measurement and response assembly. -/
def extrudeApplyPhase (req : ExtrudeReq) (doc : Doc) (cf : ℚ → ℚ)
    (plan : ExtrudePlan) (body : Body) (candFaces : Nat) (host : Host) :
    Resp ExtrudeData :=
  let beforeVisible := listVisibleBodies doc.bodies
  let measureBefore := bodyMeasurement cf body
  if host.applyFails then
    ⟨false, some ("Extrude failed: " ++ host.excMsg), some (.planOnly plan),
     none, [.applyFeature]⟩
  else if req.compute && host.computeFails then
    ⟨false, some "Extrude failed: Design compute failed",
     some (.planOnly plan), none,
     [.applyFeature, .computeAll false, .deleteFeature (!host.deleteFails)]⟩
  else
    let baseActs := [HostAction.applyFeature] ++
      (if req.compute then [HostAction.computeAll true] else [])
    let afterVisible := listVisibleBodies host.afterBodies
    match guardrailCheck extrudeThresholds host.timingMs (gFaceDelta doc host)
        (gEdgeDelta doc host) (gBodyDelta doc host) with
    | some e =>
      ⟨false, some (gErrString extrudeThresholds e), some (.planOnly plan),
       none, baseActs ++ extrudeRollbackActs req.compute host⟩
    | none =>
      if req.operation = "new_body" then
        match newBodyCandidates beforeVisible afterVisible with
        | [nb] => extrudeSuccess req cf plan measureBefore candFaces host
            (some nb) baseActs
        | [] =>
          ⟨false, some "No new body created.", some (.planOnly plan), none,
           baseActs ++ extrudeRollbackActs req.compute host⟩
        | _ =>
          ⟨false, some "Multiple bodies created; guardrail failure.",
           some (.planOnly plan), none,
           baseActs ++ extrudeRollbackActs req.compute host⟩
      else
        extrudeSuccess req cf plan measureBefore candFaces host none baseActs

/-- The validation prefix of `extrude_feature.handle`, in source order:
    units, selector grammar, operation, direction, numeric conversion,
    positivity, the `MAX_EXTRUDE_MM` bound, body resolution, face
    selection, plan assembly.  No step touches the host. -/
def extrudeValidate (req : ExtrudeReq) (doc : Doc) (cf : ℚ → ℚ)
    (nf : Point → Option Point) :
    Except (Resp ExtrudeData) (ExtrudePlan × Body × Nat) :=
  if req.units ≠ "mm" then
    .error (errResp ("Unsupported units: " ++ req.units ++
      ". Only \x27mm\x27 is supported."))
  else
    match parseFaceSelector req.faceSelector with
    | none =>
      .error (errResp ("Unsupported face_selector: " ++ req.faceSelector))
    | some sel =>
      if ¬(req.operation = "new_body" ∨ req.operation = "join" ∨
           req.operation = "cut" ∨ req.operation = "intersect") then
        .error (errResp ("Unsupported operation: " ++ req.operation))
      else if ¬(req.direction = "normal" ∨ req.direction = "opposite") then
        .error (errResp ("Unsupported direction: " ++ req.direction))
      else
        match req.distanceMm with
        | none => .error (errResp "distance_mm must be a number")
        | some d =>
          if d ≤ 0 then .error (errResp "distance_mm must be > 0")
          else if d > 50 then
            .error (errResp "distance_mm exceeds MAX_EXTRUDE_MM (50.0)")
          else
            match resolveBody doc.bodies req.bodyName with
            | (none, vis) => .error (bodyFailResp req.bodyName vis)
            | (some body, _) =>
              match selectFace sel cf nf body.faces with
              | (none, _) =>
                .error (errResp "No planar faces matched selector.")
              | (some cand, cnt) =>
                let normalP :=
                  match cand.normalOut with
                  | some n => some n
                  | none => cand.face.normal.bind nf
                .ok (⟨body.name, cand.faceId, req.faceSelector,
                      cand.centroidT, normalP, cand.areaMm2, req.operation,
                      d, req.direction⟩, body, cnt)

/-- `extrude_feature.handle`. -/
def extrudeHandle (req : ExtrudeReq) (doc : Doc) (cf : ℚ → ℚ)
    (nf : Point → Option Point) (host : Host) : Resp ExtrudeData :=
  match extrudeValidate req doc cf nf with
  | .error r => r
  | .ok (plan, body, cnt) =>
    if req.preview then
      ⟨true, none, some (.previewData plan (bodyMeasurement cf body) cnt),
       none, []⟩
    else extrudeApplyPhase req doc cf plan body cnt host

/-! ### `fillet_feature.py` -/

/-- A `point_mm`-style request argument: absent, present but not a dict, or
    a numeric point. -/
inductive PtArg
  | absent
  | notDict
  | pt (p : Point)
deriving DecidableEq, Repr

/-- `_find_edge_by_id`: the first edge of a visible solid body whose
    identity token equals the given id. -/
def findEdgeById (doc : Doc) (eid : String) : Option Edge :=
  ((listVisibleBodies doc.bodies).flatMap Body.edges).find?
    (fun e => e.entityId = some eid)

/-- The fillet plan dict. -/
structure FilletPlan where
  edgeId : Option String
  edgeSelector : Option String
  radiusMm : ℚ
deriving DecidableEq, Repr

/-- A `fillet_feature` request after `request.get` defaulting. -/
structure FilletReq where
  edgeId : Option String
  edgeSelector : Option String
  bodyName : Option String
  pointMm : PtArg
  radiusMm : Option ℚ
  preview : Bool
  compute : Bool
deriving DecidableEq, Repr

/-- The edge-selection tail of `fillet_feature.handle`'s validation. -/
def filletSelectTail (req : FilletReq) (cf : ℚ → ℚ) (r : ℚ) (sel : EdgeSel)
    (body : Body) (pt : Option Point) :
    Except (Resp (GenData FilletPlan)) FilletPlan :=
  match selectEdge sel cf pt body.edges with
  | (none, _) => .error (errResp "No edges matched selector.")
  | (some cand, _) => .ok ⟨cand.edge.entityId, req.edgeSelector, r⟩

/-- The validation prefix of `fillet_feature.handle`, in source order. -/
def filletValidate (req : FilletReq) (doc : Doc) (cf : ℚ → ℚ) :
    Except (Resp (GenData FilletPlan)) FilletPlan :=
  if ¬truthyS req.edgeId ∧ ¬truthyS req.edgeSelector then
    .error (errResp "edge_id or edge_selector is required")
  else
    match req.radiusMm with
    | none => .error (errResp "radius_mm must be numeric")
    | some r =>
      if r ≤ 0 then .error (errResp "radius_mm must be > 0")
      else if r > 50 then
        .error (errResp "radius_mm exceeds MAX_RADIUS_MM (50.0)")
      else if truthyS req.edgeId then
        match findEdgeById doc (req.edgeId.getD "") with
        | none =>
          .error (errResp ("edge_id not found: " ++ req.edgeId.getD ""))
        | some edge => .ok ⟨edge.entityId, req.edgeSelector, r⟩
      else
        match parseEdgeSelector (req.edgeSelector.getD "") with
        | none =>
          .error (errResp ("Unsupported edge_selector: " ++
            req.edgeSelector.getD ""))
        | some sel =>
          match resolveBody doc.bodies req.bodyName with
          | (none, vis) => .error (bodyFailResp req.bodyName vis)
          | (some body, _) =>
            if sel = .closestToPoint then
              match req.pointMm with
              | .pt p => filletSelectTail req cf r sel body (some p)
              | _ =>
                .error (errResp "point_mm is required for closest_to_point")
            else filletSelectTail req cf r sel body none

/-- `fillet_feature.handle`. -/
def filletHandle (req : FilletReq) (doc : Doc) (cf : ℚ → ℚ) (host : Host) :
    Resp (GenData FilletPlan) :=
  match filletValidate req doc cf with
  | .error r => r
  | .ok plan =>
    if req.preview then ⟨true, none, some (.previewData plan), none, []⟩
    else genApply filletConfig req.compute plan doc host

/-! ### `hole_feature.py` -/

/-- `_find_face_by_id` (hole variant): the first face of a visible solid
    body with the given identity token, together with its body. -/
def findFaceWithBodyById (doc : Doc) (fid : String) :
    Option (Face × Body) :=
  ((listVisibleBodies doc.bodies).flatMap
      (fun b => b.faces.map (fun f => (f, b)))).find?
    (fun p => p.1.entityId = some fid)

/-- The hole plan dict. -/
structure HolePlan where
  bodyName : Option String
  faceId : Option String
  selectorStr : Option String
  centerMm : Point
  diameterMm : ℚ
  depthMm : Option ℚ
  throughAll : Bool
deriving DecidableEq, Repr

/-- A `hole_feature` request after `request.get` defaulting. -/
structure HoleReq where
  bodyName : Option String
  faceSelector : Option String
  faceId : Option String
  centerMm : PtArg
  diameterMm : Option ℚ
  depthMm : Option ℚ
  throughAll : Bool
  preview : Bool
deriving DecidableEq, Repr

/-- The face-resolution tail of `hole_feature.handle`'s validation. -/
def holeResolveTail (req : HoleReq) (doc : Doc) (cf : ℚ → ℚ)
    (nf : Point → Option Point) (center : Point) (dia : ℚ)
    (depth : Option ℚ) : Except (Resp (GenData HolePlan)) HolePlan :=
  if truthyS req.faceId then
    match findFaceWithBodyById doc (req.faceId.getD "") with
    | none => .error (errResp ("face_id not found: " ++ req.faceId.getD ""))
    | some (face, body) =>
      .ok ⟨some body.name, face.entityId, req.faceSelector, center, dia,
           depth, req.throughAll⟩
  else
    match parseFaceSelector (req.faceSelector.getD "") with
    | none =>
      .error (errResp ("Unsupported face_selector: " ++
        req.faceSelector.getD ""))
    | some sel =>
      match resolveBody doc.bodies req.bodyName with
      | (none, vis) => .error (bodyFailResp req.bodyName vis)
      | (some body, _) =>
        match selectFace sel cf nf body.faces with
        | (none, _) => .error (errResp "No faces matched selector.")
        | (some cand, _) =>
          .ok ⟨some body.name, cand.face.entityId, req.faceSelector, center,
               dia, depth, req.throughAll⟩

/-- The validation prefix of `hole_feature.handle`, in source order. -/
def holeValidate (req : HoleReq) (doc : Doc) (cf : ℚ → ℚ)
    (nf : Point → Option Point) :
    Except (Resp (GenData HolePlan)) HolePlan :=
  if ¬truthyS req.faceId ∧ ¬truthyS req.faceSelector then
    .error (errResp "face_selector or face_id is required")
  else
    match req.centerMm with
    | .pt center =>
      (match req.diameterMm with
       | none => .error (errResp "center_mm and diameter_mm must be numeric")
       | some dia =>
         if dia ≤ 0 then .error (errResp "diameter_mm must be > 0")
         else if req.throughAll then
           holeResolveTail req doc cf nf center dia none
         else
           match req.depthMm with
           | none =>
             .error
               (errResp "depth_mm must be numeric when through_all is false")
           | some dep =>
             if dep ≤ 0 then .error (errResp "depth_mm must be > 0")
             else if dep > 50 then
               .error (errResp "depth_mm exceeds MAX_DISTANCE_MM (50.0)")
             else holeResolveTail req doc cf nf center dia (some dep))
    | _ => .error (errResp "center_mm must be an object with x,y,z")

/-- `hole_feature.handle`. -/
def holeHandle (req : HoleReq) (doc : Doc) (cf : ℚ → ℚ)
    (nf : Point → Option Point) (host : Host) : Resp (GenData HolePlan) :=
  match holeValidate req doc cf nf with
  | .error r => r
  | .ok plan =>
    if req.preview then ⟨true, none, some (.previewData plan), none, []⟩
    else genApply holeConfig false plan doc host

/-! ### `extrude_profile.py` -/

/-- `_find_sketch`: the sketch with the given identity token. -/
def findSketch (doc : Doc) (sid : String) : Option Sketch :=
  doc.sketches.find? (fun s => s.entityId = some sid)

/-- The extrude-profile plan dict. -/
structure ProfilePlan where
  sketchId : String
  profileIndex : Int
  operation : String
  distanceMm : Option ℚ
  direction : String
  bodyName : Option String
  throughAll : Bool
deriving DecidableEq, Repr

/-- An `extrude_profile` request after `request.get` defaulting. -/
structure ProfileReq where
  sketchId : Option String
  profileIndex : Option Int
  operation : String
  distanceMm : Option ℚ
  direction : String
  bodyName : Option String
  throughAll : Bool
  preview : Bool
  compute : Bool
deriving DecidableEq, Repr

/-- The tail of `extrude_profile.handle`'s validation after the distance
    checks. -/
def profileResolveTail (req : ProfileReq) (doc : Doc) (idx : Int) :
    Except (Resp (GenData ProfilePlan)) ProfilePlan :=
  if ¬(req.direction = "normal" ∨ req.direction = "opposite") then
    .error (errResp ("Unsupported direction: " ++ req.direction))
  else if ¬(req.operation = "new_body" ∨ req.operation = "join" ∨
            req.operation = "cut" ∨ req.operation = "intersect") then
    .error (errResp ("Unsupported operation: " ++ req.operation))
  else
    match findSketch doc (req.sketchId.getD "") with
    | none =>
      .error (errResp ("sketch_id not found: " ++ req.sketchId.getD ""))
    | some sketch =>
      if ¬(0 ≤ idx ∧ idx < sketch.profiles.length) then
        .error (errResp ("Profile not found at index " ++ toString idx))
      else if truthyS req.bodyName then
        match resolveBody doc.bodies req.bodyName with
        | (none, vis) =>
          .error (errRespC ("Body not found: " ++ req.bodyName.getD "" ++
            ". Candidates: " ++ pyStrListRepr (sortedNames vis))
            (sortedNames vis))
        | (some _, _) =>
          .ok ⟨req.sketchId.getD "", idx, req.operation,
               (if req.throughAll then none else req.distanceMm),
               req.direction, req.bodyName, req.throughAll⟩
      else
        .ok ⟨req.sketchId.getD "", idx, req.operation,
             (if req.throughAll then none else req.distanceMm),
             req.direction, req.bodyName, req.throughAll⟩

/-- The validation prefix of `extrude_profile.handle`, in source order. -/
def profileValidate (req : ProfileReq) (doc : Doc) :
    Except (Resp (GenData ProfilePlan)) ProfilePlan :=
  if ¬truthyS req.sketchId then .error (errResp "sketch_id is required")
  else
    match req.profileIndex with
    | none => .error (errResp "profile_index must be an integer")
    | some idx =>
      if req.throughAll then profileResolveTail req doc idx
      else
        match req.distanceMm with
        | none => .error (errResp "distance_mm must be a number")
        | some d =>
          if d ≤ 0 then .error (errResp "distance_mm must be > 0")
          else if d > 100 then
            .error (errResp "distance_mm exceeds MAX_DISTANCE_MM (100.0)")
          else profileResolveTail req doc idx

/-- `extrude_profile.handle`. -/
def profileHandle (req : ProfileReq) (doc : Doc) (host : Host) :
    Resp (GenData ProfilePlan) :=
  match profileValidate req doc with
  | .error r => r
  | .ok plan =>
    if req.preview then ⟨true, none, some (.previewData plan), none, []⟩
    else genApply profileConfig req.compute plan doc host

/-! ### `shell_feature.py` -/

/-- A `remove_faces`-style request argument. -/
inductive RFArg
  | absent
  | notList
  | ids (l : List String)
deriving DecidableEq, Repr

/-- Python truthiness of a `remove_faces` argument (`if remove_faces:`):
    `None` and `[]` are falsy, a non-list value is assumed truthy. -/
def truthyRF : RFArg → Bool
  | .absent => false
  | .notList => true
  | .ids l => !l.isEmpty

/-- The inner loop of `_find_faces_by_ids` over the flattened visible faces:
    collect each face whose id is still wanted, dropping the id, and stop
    once nothing is wanted. -/
def collectWanted : List Face → List String → List Face
  | _, [] => []
  | [], _ => []
  | f :: fs, wanted =>
    match f.entityId with
    | some i =>
      if i ∈ wanted then f :: collectWanted fs (wanted.erase i)
      else collectWanted fs wanted
    | none => collectWanted fs wanted

/-- `_find_faces_by_ids`: the wanted ids form a set, so duplicates in the
    request collapse. -/
def findFacesByIds (doc : Doc) (ids : List String) : List Face :=
  collectWanted ((listVisibleBodies doc.bodies).flatMap Body.faces) ids.dedup

/-- The shell plan dict. -/
structure ShellPlan where
  bodyName : String
  thicknessMm : ℚ
  removeFaces : List String
  inside : Bool
deriving DecidableEq, Repr

/-- A `shell_feature` request after `request.get` defaulting. -/
structure ShellReq where
  bodyName : Option String
  thicknessMm : Option ℚ
  removeFaces : RFArg
  preview : Bool
  inside : Bool
deriving DecidableEq, Repr

/-- The validation prefix of `shell_feature.handle`, in source order. -/
def shellValidate (req : ShellReq) (doc : Doc) (cf : ℚ → ℚ)
    (nf : Point → Option Point) :
    Except (Resp (GenData ShellPlan)) ShellPlan :=
  match req.thicknessMm with
  | none => .error (errResp "thickness_mm must be numeric")
  | some th =>
    if th ≤ 0 then .error (errResp "thickness_mm must be > 0")
    else if th > 50 then
      .error (errResp "thickness_mm exceeds MAX_DISTANCE_MM (50.0)")
    else
      match resolveBody doc.bodies req.bodyName with
      | (none, vis) => .error (bodyFailResp req.bodyName vis)
      | (some body, _) =>
        if truthyRF req.removeFaces then
          match req.removeFaces with
          | .ids l =>
            if (findFacesByIds doc l).length ≠ l.length then
              .error (errResp "One or more remove_faces ids not found")
            else .ok ⟨body.name, th, l, req.inside⟩
          | _ =>
            .error (errResp "remove_faces must be a list of face ids")
        else
          let autoSel :=
            match (selectFace .largestPlanar cf nf body.faces).1 with
            | some cand =>
              match cand.face.entityId with
              | some i => if i ≠ "" then [i] else []
              | none => []
            | none => []
          .ok ⟨body.name, th, autoSel, req.inside⟩

/-- `shell_feature.handle`. -/
def shellHandle (req : ShellReq) (doc : Doc) (cf : ℚ → ℚ)
    (nf : Point → Option Point) (host : Host) : Resp (GenData ShellPlan) :=
  match shellValidate req doc cf nf with
  | .error r => r
  | .ok plan =>
    if req.preview then ⟨true, none, some (.previewData plan), none, []⟩
    else genApply shellConfig false plan doc host

/-! ### `mirror_feature.py` and `pattern_feature.py` -/

/-- The `base` label of a mirror/pattern plan: the mirrored/patterned
    feature, or the body. -/
inductive BaseLabel
  | feature (fid : String) (typeName : String)
  | body (name : String)
deriving DecidableEq, Repr

/-- `_find_feature_by_id` (`_feature_helpers`): the first timeline feature
    with the given identity token, with its type name. -/
def findFeatureById (doc : Doc) (fid : String) : Option Feat :=
  doc.features.find? (fun f => f.entityId = some fid)

/-- Resolve the `feature_id`-or-`body_name` base entity shared by mirror and
    pattern, with the shared error responses. -/
def resolveBase {P : Type} (featureId bodyName : Option String) (doc : Doc) :
    Except (Resp (GenData P)) BaseLabel :=
  if truthyS featureId then
    match findFeatureById doc (featureId.getD "") with
    | none =>
      .error (errResp ("feature_id not found: " ++ featureId.getD ""))
    | some f => .ok (.feature (featureId.getD "") f.typeName)
  else
    match resolveBody doc.bodies bodyName with
    | (none, vis) => .error (bodyFailResp bodyName vis)
    | (some body, _) => .ok (.body body.name)

/-- The mirror plan dict. -/
structure MirrorPlan where
  base : BaseLabel
  mirrorPlane : Option String
  faceId : Option String
deriving DecidableEq, Repr

/-- A `mirror_feature` request after `request.get` defaulting. -/
structure MirrorReq where
  featureId : Option String
  bodyName : Option String
  mirrorPlane : Option String
  faceId : Option String
  preview : Bool
deriving DecidableEq, Repr

/-- `_plane_from_name` succeeds exactly on XY / YZ / XZ (upper-cased). -/
def planeNameValid (plane : Option String) : Bool :=
  let p := (plane.getD "").toUpper
  p = "XY" || p = "YZ" || p = "XZ"

/-- The validation prefix of `mirror_feature.handle`, in source order. -/
def mirrorValidate (req : MirrorReq) (doc : Doc) :
    Except (Resp (GenData MirrorPlan)) MirrorPlan :=
  if ¬truthyS req.featureId ∧ ¬truthyS req.bodyName then
    .error (errResp "feature_id or body_name is required")
  else
    match resolveBase req.featureId req.bodyName doc with
    | .error r => .error r
    | .ok base =>
      if truthyS req.faceId then
        match findFaceWithBodyById doc (req.faceId.getD "") with
        | none =>
          .error (errResp ("face_id not found: " ++ req.faceId.getD ""))
        | some _ => .ok ⟨base, req.mirrorPlane, req.faceId⟩
      else if planeNameValid req.mirrorPlane then
        .ok ⟨base, req.mirrorPlane, req.faceId⟩
      else
        .error
          (errResp "mirror_plane must be XY, YZ, XZ, or face_id must be provided")

/-- `mirror_feature.handle`. -/
def mirrorHandle (req : MirrorReq) (doc : Doc) (host : Host) :
    Resp (GenData MirrorPlan) :=
  match mirrorValidate req doc with
  | .error r => r
  | .ok plan =>
    if req.preview then ⟨true, none, some (.previewData plan), none, []⟩
    else genApply mirrorConfig false plan doc host

/-- The branch-specific tail of a pattern plan dict. -/
inductive PatternDetail
  | rect (axis1 axis2 : String) (count1 count2 : Int)
      (spacing1 spacing2 : ℚ)
  | circ (axis : String) (count : Int) (angleDeg : ℚ)
deriving DecidableEq, Repr

/-- The pattern plan dict. -/
structure PatternPlan where
  patternType : String
  base : BaseLabel
  detail : PatternDetail
deriving DecidableEq, Repr

/-- A `pattern_feature` request after `request.get` defaulting. -/
structure PatternReq where
  patternType : Option String
  featureId : Option String
  bodyName : Option String
  preview : Bool
  axis1 : Option String
  axis2 : Option String
  count1 : Option Int
  count2 : Option Int
  spacing1Mm : Option ℚ
  spacing2Mm : Option ℚ
  axis : Option String
  count : Option Int
  angleDeg : Option ℚ
deriving DecidableEq, Repr

/-- `_axis_from_name` succeeds exactly on X / Y / Z (upper-cased). -/
def axisNameValid (axis : Option String) : Bool :=
  let a := (axis.getD "").toUpper
  a = "X" || a = "Y" || a = "Z"

/-- The validation prefix of `pattern_feature.handle`; also reports which
    branch was taken (rectangular or circular). -/
def patternValidate (req : PatternReq) (doc : Doc) :
    Except (Resp (GenData PatternPlan)) (PatternPlan × Bool) :=
  if ¬(req.patternType = some "rectangular" ∨
       req.patternType = some "circular") then
    .error (errResp "pattern_type must be rectangular or circular")
  else
    match resolveBase req.featureId req.bodyName doc with
    | .error r => .error r
    | .ok base =>
      if req.patternType = some "rectangular" then
        match req.count1, req.count2, req.spacing1Mm, req.spacing2Mm with
        | some c1, some c2, some s1, some s2 =>
          if c1 ≤ 0 ∨ c2 ≤ 0 then
            .error (errResp "count1 and count2 must be > 0")
          else if s1 ≤ 0 ∨ s2 ≤ 0 then
            .error (errResp "spacing1_mm and spacing2_mm must be > 0")
          else if s1 > 50 ∨ s2 > 50 then
            .error (errResp "spacing exceeds MAX_DISTANCE_MM (50.0)")
          else if ¬(axisNameValid req.axis1 ∧ axisNameValid req.axis2) then
            .error (errResp "axis1 and axis2 must be X, Y, or Z")
          else
            .ok (⟨"rectangular", base,
                  .rect (req.axis1.getD "") (req.axis2.getD "") c1 c2 s1 s2⟩,
                 true)
        | _, _, _, _ =>
          .error (errResp
            "count1/count2 must be ints and spacing1/spacing2 must be numbers")
      else
        match req.count, req.angleDeg with
        | some c, some ang =>
          if c ≤ 0 then .error (errResp "count must be > 0")
          else if ¬axisNameValid req.axis then
            .error (errResp "axis must be X, Y, or Z")
          else .ok (⟨"circular", base, .circ (req.axis.getD "") c ang⟩, false)
        | _, _ =>
          .error (errResp "count must be int and angle_deg must be numeric")

/-- `pattern_feature.handle`. -/
def patternHandle (req : PatternReq) (doc : Doc) (host : Host) :
    Resp (GenData PatternPlan) :=
  match patternValidate req doc with
  | .error r => r
  | .ok (plan, isRect) =>
    if req.preview then ⟨true, none, some (.previewData plan), none, []⟩
    else
      genApply (if isRect then patternRectConfig else patternCircConfig)
        false plan doc host

/-! ### `revolve_feature.py` -/

/-- An `axis_line_mm`-style request argument, covering each shape the
    validation distinguishes. -/
inductive LineArg
  | absent
  | notDict
  | missingPoints
  | nonNumeric
  | line (p1 p2 : Point)
deriving DecidableEq, Repr

/-- `_find_profile`: with no curve ids, the first profile (if any);
    otherwise the first profile whose collected curve-entity ids contain
    every requested id. -/
def findProfile (sketch : Sketch) (curveIds : List String) : Option Nat :=
  if curveIds.isEmpty then
    if sketch.profiles.isEmpty then none else some 0
  else
    (List.range sketch.profiles.length).find?
      (fun i => curveIds.all (fun c => c ∈ sketch.profiles.getD i []))

/-- The axis part of a revolve plan dict. -/
inductive RevAxisPlan
  | edge (eid : String)
  | selector (s : String)
  | lineMm (p1 p2 : Point)
deriving DecidableEq, Repr

/-- The revolve plan dict. -/
structure RevolvePlan where
  sketchId : String
  profileCurveIds : Option (List String)
  axis : RevAxisPlan
  angleDeg : ℚ
  operation : String
deriving DecidableEq, Repr

/-- A `revolve_feature` request after `request.get` defaulting. -/
structure RevolveReq where
  sketchId : Option String
  profileCurveIds : Option (List String)
  axisSelector : Option String
  axisLineMm : LineArg
  edgeId : Option String
  bodyName : Option String
  angleDeg : Option ℚ
  operation : String
  preview : Bool
deriving DecidableEq, Repr

/-- Python truthiness of an `axis_line_mm` argument (`elif axis_line_mm:`). -/
def truthyLine : LineArg → Bool
  | .absent => false
  | _ => true

/-- The axis-resolution step of `revolve_feature.handle`: an explicit edge
    id, an edge selector, or an `axis_line_mm` pair; the last path creates a
    construction axis in the document (a mutation, recorded in the action
    list) before the handler reaches its preview check. -/
def revolveAxis (req : RevolveReq) (doc : Doc) (cf : ℚ → ℚ) (host : Host) :
    Except (Resp (GenData RevolvePlan)) (RevAxisPlan × List HostAction) :=
  if truthyS req.edgeId then
    match findEdgeById doc (req.edgeId.getD "") with
    | none => .error (errResp ("edge_id not found: " ++ req.edgeId.getD ""))
    | some _ => .ok (RevAxisPlan.edge (req.edgeId.getD ""), [])
  else if truthyS req.axisSelector then
    match parseEdgeSelector (req.axisSelector.getD "") with
    | none =>
      .error (errResp ("Unsupported axis_selector: " ++
        req.axisSelector.getD ""))
    | some sel =>
      match resolveBody doc.bodies req.bodyName with
      | (none, vis) => .error (bodyFailResp req.bodyName vis)
      | (some body, _) =>
        match selectEdge sel cf none body.edges with
        | (none, _) => .error (errResp "No edges matched axis_selector.")
        | (some _, _) =>
          .ok (RevAxisPlan.selector (req.axisSelector.getD ""), [])
  else if truthyLine req.axisLineMm then
    match req.axisLineMm with
    | .notDict => .error (errResp "axis_line_mm must be an object with p1 and p2")
    | .missingPoints =>
      .error (errResp "axis_line_mm must include p1 and p2 points")
    | .nonNumeric => .error (errResp "axis_line_mm points must be numeric")
    | .line p1 p2 =>
      if host.axisCreateFails then
        .error (errResp ("Failed to create axis from axis_line_mm: " ++
          host.excMsg))
      else
        .ok (RevAxisPlan.lineMm p1 p2, [HostAction.createConstructionAxis])
    | .absent =>
      .error (errResp "axis_selector, edge_id, or axis_line_mm is required")
  else
    .error (errResp "axis_selector, edge_id, or axis_line_mm is required")

/-- The validation prefix of `revolve_feature.handle`, in source order. -/
def revolveValidate (req : RevolveReq) (doc : Doc) (cf : ℚ → ℚ)
    (host : Host) :
    Except (Resp (GenData RevolvePlan)) (RevolvePlan × List HostAction) :=
  if ¬truthyS req.sketchId then
    .error (errResp "profile_sketch_id is required")
  else
    match req.angleDeg with
    | none => .error (errResp "angle_deg must be numeric")
    | some ang =>
      if ¬(req.operation = "new_body" ∨ req.operation = "join" ∨
           req.operation = "cut" ∨ req.operation = "intersect") then
        .error (errResp ("Unsupported operation: " ++ req.operation))
      else
        match findSketch doc (req.sketchId.getD "") with
        | none =>
          .error (errResp ("profile_sketch_id not found: " ++
            req.sketchId.getD ""))
        | some sketch =>
          match findProfile sketch ((req.profileCurveIds).getD []) with
          | none =>
            .error
              (errResp "Failed to resolve profile from profile_curve_ids")
          | some _ =>
            match revolveAxis req doc cf host with
            | .error r => .error r
            | .ok (axisPlan, preActs) =>
              .ok (⟨req.sketchId.getD "", req.profileCurveIds, axisPlan, ang,
                    req.operation⟩, preActs)

/-- `revolve_feature.handle`. -/
def revolveHandle (req : RevolveReq) (doc : Doc) (cf : ℚ → ℚ)
    (host : Host) : Resp (GenData RevolvePlan) :=
  match revolveValidate req doc cf host with
  | .error r => r
  | .ok (plan, preActs) =>
    if req.preview then
      ⟨true, none, some (.previewData plan), none, preActs⟩
    else
      let r := genApply revolveConfig false plan doc host
      ⟨r.ok, r.error, r.data, r.candidates, preActs ++ r.actions⟩

/-! ## Concrete fixtures used by witnesses and counterexamples -/

/-- A planar unit face at the origin with identity token `"a"`. -/
def faceA : Face :=
  ⟨true, some (0, 0, 0), some 4, some "a", some (0, 0, 1), none⟩

/-- A planar unit face of the same area centred at `(1,0,0)`, token `"b"`. -/
def faceB : Face :=
  ⟨true, some (1, 0, 0), some 4, some "b", some (0, 0, 1), none⟩

/-- An identity length conversion (a host whose internal unit is mm). -/
def cf0 : ℚ → ℚ := fun x => x

/-- A host vector normalisation that always fails (degenerate vectors). -/
def nf0 : Point → Option Point := fun _ => none

/-- A planar face with token `"f1"` on the fixture body. -/
def faceTop : Face :=
  ⟨true, some (0, 0, 0), some 4, some "f1", none, some ((0, 0, 0), (1, 1, 1))⟩

/-- A visible solid fixture body named `Box`. -/
def bodyBox : Body :=
  ⟨"Box", some "bk", true, true, [faceTop], [], 0, none, none⟩

/-- A second visible solid body, as created by a `new_body` extrude. -/
def bodyNew : Body :=
  ⟨"Box2", some "bk2", true, true, [], [], 0, none, none⟩

/-- A third visible solid body, for ambiguous `new_body` outcomes. -/
def bodyNew2 : Body :=
  ⟨"Box3", some "bk3", true, true, [], [], 0, none, none⟩

/-- A fixture document holding only `bodyBox`. -/
def docBox : Doc := ⟨[bodyBox], [], []⟩

/-- A host on which every call succeeds, the apply takes 100 ms and leaves
    the document unchanged. -/
def hostOk : Host :=
  ⟨false, "", false, 100, 100, [bodyBox], bodyBox, some "ft1", some "Extrude1",
   false, false, false⟩

/-- A well-formed join-extrude request at the `MAX_EXTRUDE_MM` boundary. -/
def reqExtrude50 : ExtrudeReq :=
  ⟨none, "largest_planar", "join", some 50, "normal", false, true, "mm", 1, 1⟩

/-- `50.0 + 1e-6` as an exact rational. -/
def oneMicroOver : ℚ := ⟨50000001, 1000000, by decide, by decide⟩

/-- The boundary request pushed just over the limit. -/
def reqExtrudeOver : ExtrudeReq :=
  ⟨none, "largest_planar", "join", some oneMicroOver, "normal", false, true,
   "mm", 1, 1⟩

/-- An extrude request naming a body that does not exist. -/
def reqNope : ExtrudeReq :=
  ⟨some "Nope", "largest_planar", "join", some 10, "normal", false, true,
   "mm", 1, 1⟩

/-- A well-formed `new_body` extrude request. -/
def reqNewBody : ExtrudeReq :=
  ⟨none, "largest_planar", "new_body", some 10, "normal", false, true, "mm",
   1, 1⟩

/-- A second pre-existing visible solid body. -/
def bodyOld : Body :=
  ⟨"Old", some "bo", true, true, [], [], 0, none, none⟩

/-- A host whose apply leaves exactly one new visible body. -/
def hostNewBody : Host :=
  ⟨false, "", false, 100, 100, [bodyBox, bodyNew], bodyBox, some "ft1",
   some "Extrude1", false, false, false⟩

/-- A host whose apply leaves two new visible identities while one old body
    disappeared (so the body-count guardrail still passes). -/
def hostTwoNew : Host :=
  ⟨false, "", false, 100, 100, [bodyBox, bodyNew, bodyNew2], bodyBox,
   some "ft1", some "Extrude1", false, false, false⟩

/-- The two-body fixture document for the ambiguous case. -/
def docTwo : Doc := ⟨[bodyBox, bodyOld], [], []⟩

/-- A preview revolve request that supplies `axis_line_mm`. -/
def reqRevLine : RevolveReq :=
  ⟨some "sk1", none, none, .line (0, 0, 0) (0, 0, 1), none, none, some 360,
   "new_body", true⟩

/-- A document holding a sketch with one profile. -/
def docSketch : Doc := ⟨[bodyBox], [⟨some "sk1", [["c1"]]⟩], []⟩

/-- The plan the preview revolve returns. -/
def revLinePlan : RevolvePlan :=
  ⟨"sk1", none, .lineMm (0, 0, 0) (0, 0, 1), 360, "new_body"⟩

/-- A concrete extrude plan for apply-phase fixtures. -/
def planX : ExtrudePlan :=
  ⟨"Box", "f1", "largest_planar", (0, 0, 0), none, none, "join", 50, "normal"⟩

/-- A concrete fillet plan for apply-phase fixtures. -/
def planF : FilletPlan := ⟨some "e1", none, 5⟩

/-- A host whose apply took 2000 ms — breaching the face-extrude time
    guardrail. -/
def hostSlow : Host := {hostOk with timingMs := 2000}

/-- A host whose apply took 6000 ms — breaching the fillet time guardrail. -/
def hostSlow2 : Host := {hostOk with timingMs := 6000}

/-- A host on which the document recompute raises. -/
def hostComputeFail : Host := {hostOk with computeFails := true}

/-- The boundary extrude request as a preview. -/
def reqExtrudePrev : ExtrudeReq :=
  ⟨none, "largest_planar", "join", some 10, "normal", true, true, "mm", 1, 1⟩

/-- A minimal fillet preview request. -/
def reqF0 : FilletReq := ⟨none, none, none, .absent, none, true, true⟩

/-- A minimal hole preview request. -/
def reqH0 : HoleReq := ⟨none, none, none, .absent, none, none, false, true⟩

/-- A minimal extrude-profile preview request. -/
def reqP0 : ProfileReq :=
  ⟨none, none, "new_body", none, "normal", none, false, true, true⟩

/-- A minimal shell preview request. -/
def reqS0 : ShellReq := ⟨none, none, .absent, true, true⟩

/-- A minimal mirror preview request. -/
def reqM0 : MirrorReq := ⟨none, none, none, none, true⟩

/-- A minimal pattern preview request. -/
def reqT0 : PatternReq :=
  ⟨none, none, none, true, none, none, none, none, none, none, none, none,
   none⟩

/-- A minimal revolve preview request without `axis_line_mm`. -/
def reqR0 : RevolveReq :=
  ⟨none, none, none, .absent, none, none, some 360, "new_body", true⟩

/-! ## Theorems -/

theorem pickFirstMin_mem {α K : Type} [LinearOrder K] (key : α → K) :
    ∀ (l : List α) (b : α), pickFirstMin key b l ∈ b :: l := by
  intro l
  induction l with
  | nil => intro b; simp [pickFirstMin]
  | cons c cs ih =>
    intro b
    simp only [pickFirstMin]
    by_cases h : key c < key b
    · simp only [if_pos h]
      have := ih c
      simp only [List.mem_cons] at this ⊢
      tauto
    · simp only [if_neg h]
      have := ih b
      simp only [List.mem_cons] at this ⊢
      tauto

theorem pickFirstMin_le {α K : Type} [LinearOrder K] (key : α → K) :
    ∀ (l : List α) (b x : α), x ∈ b :: l →
      key (pickFirstMin key b l) ≤ key x := by
  intro l
  induction l with
  | nil =>
    intro b x hx
    simp only [List.mem_cons, List.not_mem_nil, or_false] at hx
    subst hx; simp [pickFirstMin]
  | cons c cs ih =>
    intro b x hx
    simp only [pickFirstMin]
    rcases List.mem_cons.mp hx with h1 | h1
    · subst h1
      by_cases h : key c < key x
      · simpa only [if_pos h] using
          le_trans (ih c c (List.mem_cons_self _ _)) (le_of_lt h)
      · simpa only [if_neg h] using ih x x (List.mem_cons_self _ _)
    · by_cases h : key c < key b
      · simpa only [if_pos h] using ih c x h1
      · rcases List.mem_cons.mp h1 with h2 | h2
        · subst h2
          simpa only [if_neg h] using
            le_trans (ih b b (List.mem_cons_self _ _)) (le_of_not_lt h)
        · simpa only [if_neg h] using ih b x (List.mem_cons_of_mem _ h2)

theorem sortWinner_mem {α K : Type} [LinearOrder K] (key : α → K)
    (l : List α) (c : α) (h : sortWinner key l = some c) : c ∈ l := by
  cases l with
  | nil => simp [sortWinner] at h
  | cons b t =>
    simp only [sortWinner, Option.some.injEq] at h
    exact h ▸ pickFirstMin_mem key t b

theorem sortWinner_le {α K : Type} [LinearOrder K] (key : α → K)
    (l : List α) (c : α) (h : sortWinner key l = some c) :
    ∀ x ∈ l, key c ≤ key x := by
  cases l with
  | nil => simp [sortWinner] at h
  | cons b t =>
    simp only [sortWinner, Option.some.injEq] at h
    exact fun x hx => h ▸ pickFirstMin_le key t b x hx

theorem sortWinner_isSome {α K : Type} [LinearOrder K] (key : α → K)
    (l : List α) (h : l ≠ []) : ∃ c, sortWinner key l = some c := by
  cases l with
  | nil => exact absurd rfl h
  | cons b t => exact ⟨pickFirstMin key b t, rfl⟩

theorem sortWinner_perm {α K : Type} [LinearOrder K] (key : α → K)
    {l l' : List α} (hp : l.Perm l') (hnd : (l.map key).Nodup) :
    sortWinner key l = sortWinner key l' := by
  cases l with
  | nil =>
    have : l' = [] := hp.symm.eq_nil
    simp [this]
  | cons b t =>
    obtain ⟨c, hc⟩ := sortWinner_isSome key (b :: t) (by simp)
    have hl' : l' ≠ [] := by
      intro h
      exact absurd (h ▸ hp).eq_nil (by simp)
    obtain ⟨c', hc'⟩ := sortWinner_isSome key l' hl'
    have hcm : c ∈ b :: t := sortWinner_mem key _ c hc
    have hcm' : c' ∈ b :: t := hp.mem_iff.mpr (sortWinner_mem key _ c' hc')
    have h1 : key c ≤ key c' := sortWinner_le key _ c hc c' hcm'
    have h2 : key c' ≤ key c :=
      sortWinner_le key _ c' hc' c (hp.mem_iff.mp hcm)
    have hkeq : key c = key c' := le_antisymm h1 h2
    have : c = c' := List.inj_on_of_nodup_map hnd hcm hcm' hkeq
    rw [hc, hc', this]

theorem mkFaceCand_faceId (sel : FaceSel) (cf : ℚ → ℚ)
    (nf : Point → Option Point) (f : Face) (c : FaceCand)
    (h : mkFaceCand sel cf nf f = some c) : c.faceId = f.entityId.getD "" := by
  unfold mkFaceCand at h
  split at h
  · exact Option.noConfusion h
  · split at h
    · exact Option.noConfusion h
    · split at h <;> dsimp only at h <;> split at h <;>
        first
          | exact Option.noConfusion h
          | (simp only [Option.some.injEq] at h; subst h; rfl)

theorem faceCands_ids_sublist (sel : FaceSel) (cf : ℚ → ℚ)
    (nf : Point → Option Point) :
    ∀ l : List Face,
      ((faceCands sel cf nf l).map FaceCand.faceId).Sublist
        (l.map (fun f => f.entityId.getD "")) := by
  intro l
  induction l with
  | nil => simp [faceCands]
  | cons f fs ih =>
    simp only [faceCands, List.filterMap_cons, List.map_cons]
    cases hf : mkFaceCand sel cf nf f with
    | none => exact (ih).cons _
    | some c =>
      have hc := mkFaceCand_faceId sel cf nf f c hf
      simpa only [List.map_cons, hc] using (ih).cons₂ _

theorem faceCands_keys_nodup (sel : FaceSel) (cf : ℚ → ℚ)
    (nf : Point → Option Point) (l : List Face)
    (hnd : (l.map (fun f => f.entityId.getD "")).Nodup) :
    ((faceCands sel cf nf l).map faceKey).Nodup := by
  have h1 : ((faceCands sel cf nf l).map FaceCand.faceId).Nodup :=
    hnd.sublist (faceCands_ids_sublist sel cf nf l)
  have h2 : ((faceCands sel cf nf l).map faceKey).map keyTok =
      (faceCands sel cf nf l).map FaceCand.faceId := by
    simp only [List.map_map]; rfl
  exact List.Nodup.of_map keyTok (h2 ▸ h1)

/-- C1.  Selector resolution is order independent: for a fixed candidate
    pool (any permutation of the face list) and any parsed face selector,
    `_select_face` returns the same winning candidate and candidate count,
    because the tie-break key `(-score, -secondary, position, token)` is a
    total order on the candidates — which requires the entity identity
    tokens to be pairwise distinct, as the data model guarantees for
    distinct entities. -/
theorem selectFace_enumeration_order_independent (sel : FaceSel)
    (cf : ℚ → ℚ) (nf : Point → Option Point) (l l' : List Face)
    (hperm : l.Perm l')
    (hnd : (l.map (fun f => f.entityId.getD "")).Nodup) :
    selectFace sel cf nf l = selectFace sel cf nf l' := by
  have hp : (faceCands sel cf nf l).Perm (faceCands sel cf nf l') :=
    hperm.filterMap _
  have hw := sortWinner_perm faceKey hp (faceCands_keys_nodup sel cf nf l hnd)
  unfold selectFace
  rw [hw, hp.length_eq]

/-- Witness for C1 at a concrete two-face pool under `largest_area`. -/
theorem selectFace_enumeration_order_independent_witness :
    ([faceA, faceB].Perm [faceB, faceA]) ∧
    (([faceA, faceB].map (fun f => f.entityId.getD "")).Nodup) ∧
    selectFace .largestArea id (fun _ => none) [faceA, faceB] =
      selectFace .largestArea id (fun _ => none) [faceB, faceA] :=
  ⟨List.Perm.swap faceB faceA [], by decide,
   selectFace_enumeration_order_independent .largestArea id (fun _ => none)
     [faceA, faceB] [faceB, faceA] (List.Perm.swap faceB faceA [])
     (by decide)⟩

/-- C8.  Under `largest_area`, two faces of equal area with centroids
    `(0,0,0)` and `(1,0,0)` resolve to the `(0,0,0)` face in either
    enumeration order: equal score and equal secondary magnitude leave the
    ascending lexicographic position tuple to decide. -/
theorem selectFace_tie_break_prefers_origin :
    ((selectFace .largestArea id (fun _ => none) [faceB, faceA]).1.map
        FaceCand.face) = some faceA ∧
    ((selectFace .largestArea id (fun _ => none) [faceA, faceB]).1.map
        FaceCand.face) = some faceA := by
  have hA : mkFaceCand .largestArea id (fun _ => none) faceA =
      some ⟨faceA, 4 * 1 * 1, some (4 * 1 * 1), (0, 0, 0), "a", none⟩ := rfl
  have hB : mkFaceCand .largestArea id (fun _ => none) faceB =
      some ⟨faceB, 4 * 1 * 1, some (4 * 1 * 1), (1, 0, 0), "b", none⟩ := rfl
  have hlt : faceKey ⟨faceA, 4 * 1 * 1, some (4 * 1 * 1), (0, 0, 0), "a", none⟩
      < faceKey ⟨faceB, 4 * 1 * 1, some (4 * 1 * 1), (1, 0, 0), "b", none⟩ := by
    simp only [faceKey, mkKey, Option.getD_some, Prod.Lex.lt_iff]
    norm_num
  have hnlt :
      ¬(faceKey ⟨faceB, 4 * 1 * 1, some (4 * 1 * 1), (1, 0, 0), "b", none⟩
        < faceKey ⟨faceA, 4 * 1 * 1, some (4 * 1 * 1), (0, 0, 0), "a", none⟩) := by
    simp only [faceKey, mkKey, Option.getD_some, Prod.Lex.lt_iff]
    norm_num
  constructor
  · simp only [selectFace, faceCands, List.filterMap_cons, List.filterMap_nil,
      hA, hB, sortWinner, pickFirstMin]
    rw [if_pos hlt]
    rfl
  · simp only [selectFace, faceCands, List.filterMap_cons, List.filterMap_nil,
      hA, hB, sortWinner, pickFirstMin]
    rw [if_neg hnlt]
    rfl

/-- C2.  The guardrail chain every mutating command runs evaluates its four
    bounds in the fixed order apply-time, face delta, edge delta, body
    delta; the first breached bound alone decides the reported error, and
    once a bound is breached the later deltas have no influence on the
    result (they are not evaluated). -/
theorem guardrail_first_breach_decides (t : GuardrailThresholds)
    (timing : ℚ) (fd ed bd fd2 ed2 bd2 : Int) :
    (timing > t.maxApplyMs → guardrailCheck t timing fd ed bd = some .time) ∧
    (timing ≤ t.maxApplyMs → fd > t.maxFaceDelta →
      guardrailCheck t timing fd ed bd = some .face) ∧
    (timing ≤ t.maxApplyMs → fd ≤ t.maxFaceDelta → ed > t.maxEdgeDelta →
      guardrailCheck t timing fd ed bd = some .edge) ∧
    (timing ≤ t.maxApplyMs → fd ≤ t.maxFaceDelta → ed ≤ t.maxEdgeDelta →
      bd > t.maxBodyDelta → guardrailCheck t timing fd ed bd = some .body) ∧
    (timing ≤ t.maxApplyMs → fd ≤ t.maxFaceDelta → ed ≤ t.maxEdgeDelta →
      bd ≤ t.maxBodyDelta → guardrailCheck t timing fd ed bd = none) ∧
    (timing > t.maxApplyMs →
      guardrailCheck t timing fd ed bd = guardrailCheck t timing fd2 ed2 bd2) ∧
    (timing ≤ t.maxApplyMs → fd > t.maxFaceDelta →
      guardrailCheck t timing fd ed bd = guardrailCheck t timing fd ed2 bd2) ∧
    (timing ≤ t.maxApplyMs → fd ≤ t.maxFaceDelta → ed > t.maxEdgeDelta →
      guardrailCheck t timing fd ed bd = guardrailCheck t timing fd ed bd2) := by
  refine ⟨fun h => ?_, fun h1 h2 => ?_, fun h1 h2 h3 => ?_,
    fun h1 h2 h3 h4 => ?_, fun h1 h2 h3 h4 => ?_, fun h => ?_,
    fun h1 h2 => ?_, fun h1 h2 h3 => ?_⟩
  · simp [guardrailCheck, h]
  · simp [guardrailCheck, not_lt.mpr h1, h2]
  · simp [guardrailCheck, not_lt.mpr h1, not_lt.mpr h2, h3]
  · simp [guardrailCheck, not_lt.mpr h1, not_lt.mpr h2, not_lt.mpr h3, h4]
  · simp [guardrailCheck, not_lt.mpr h1, not_lt.mpr h2, not_lt.mpr h3,
      not_lt.mpr h4]
  · simp [guardrailCheck, h]
  · simp [guardrailCheck, not_lt.mpr h1, h2]
  · simp [guardrailCheck, not_lt.mpr h1, not_lt.mpr h2, h3]

/-- Witness for C2 at the face-extrude thresholds: a breached face delta is
    reported regardless of the later deltas. -/
theorem guardrail_first_breach_decides_witness :
    ((1400 : ℚ) ≤ extrudeThresholds.maxApplyMs) ∧
    ((200 : Int) > extrudeThresholds.maxFaceDelta) ∧
    guardrailCheck extrudeThresholds 1400 200 999 999 = some .face ∧
    guardrailCheck extrudeThresholds 1400 200 999 999 =
      guardrailCheck extrudeThresholds 1400 200 0 0 :=
  ⟨by decide, by decide,
   (guardrail_first_breach_decides extrudeThresholds 1400 200 999 999 0 0
       0).2.1 (by decide) (by decide),
   (guardrail_first_breach_decides extrudeThresholds 1400 200 999 999 0 0
       0).2.2.2.2.2.2.1 (by decide) (by decide)⟩

/-- C4 counterexample.  The hole command's guardrail constants are
    `MAX_FACE_DELTA = 200` and `MAX_EDGE_DELTA = 400`, not the `+300 / +600`
    the spec's table assigns to the hole operation. -/
theorem hole_thresholds_differ_from_spec_table :
    holeThresholds.maxFaceDelta = 200 ∧ holeThresholds.maxEdgeDelta = 400 ∧
    ¬(holeThresholds.maxFaceDelta = 300 ∧ holeThresholds.maxEdgeDelta = 600)
    := by decide

/-- C4 amended.  The per-operation guardrail table of the source: face
    extrude 1500 ms / +150 / +300 / +1; profile extrude and fillet 5000 ms /
    +300 / +600 / +1; hole 5000 ms / +200 / +400 / +1; shell 5000 ms /
    +500 / +1000 / +1; pattern 5000 ms / +500 / +1000 / +20; mirror
    1500 ms / +400 / +800 / +10. -/
theorem guardrail_threshold_table :
    extrudeThresholds = ⟨1500, "1500.0", 150, 300, 1⟩ ∧
    profileThresholds = ⟨5000, "5000.0", 300, 600, 1⟩ ∧
    filletThresholds = ⟨5000, "5000.0", 300, 600, 1⟩ ∧
    holeThresholds = ⟨5000, "5000.0", 200, 400, 1⟩ ∧
    shellThresholds = ⟨5000, "5000.0", 500, 1000, 1⟩ ∧
    patternThresholds = ⟨5000, "5000.0", 500, 1000, 20⟩ ∧
    mirrorThresholds = ⟨1500, "1500.0", 400, 800, 10⟩ ∧
    filletConfig.t = filletThresholds ∧ holeConfig.t = holeThresholds ∧
    profileConfig.t = profileThresholds ∧ shellConfig.t = shellThresholds ∧
    patternRectConfig.t = patternThresholds ∧
    patternCircConfig.t = patternThresholds ∧
    mirrorConfig.t = mirrorThresholds :=
  ⟨rfl, rfl, rfl, rfl, rfl, rfl, rfl, rfl, rfl, rfl, rfl, rfl, rfl, rfl⟩

theorem resolveBody_snd (bodies : List Body) (n : Option String) :
    (resolveBody bodies n).2 = listVisibleBodies bodies := by
  unfold resolveBody
  dsimp only
  split_ifs <;> rfl

theorem bodyFailResp_spec {D : Type} (n : Option String) (vis : List Body) :
    (@bodyFailResp D n vis).ok = false ∧
    (@bodyFailResp D n vis).candidates = some (sortedNames vis) ∧
    (@bodyFailResp D n vis).actions = [] := by
  unfold bodyFailResp
  dsimp only
  split_ifs with h1 h2
  · exact ⟨rfl, rfl, rfl⟩
  · exact ⟨rfl, by simp [errRespC, List.isEmpty_iff.mp h2], rfl⟩
  · exact ⟨rfl, rfl, rfl⟩

/-- C10 counterexample.  A supplied but empty `body_name` is falsy in
    Python, so `_resolve_body` follows the no-name default rule and returns
    the unique visible body even though no body is named `""`. -/
theorem resolveBody_empty_name_counterexample :
    resolveBody [bodyBox] (some "") = (some bodyBox, [bodyBox]) ∧
    bodyBox.name ≠ "" := by decide

/-- C10 amended.  `_resolve_body` with a missing or empty `body_name`
    succeeds exactly when there is exactly one visible solid body, returning
    it; with a non-empty name it returns the first visible solid body with
    exactly that name (failing when none matches); the visible pool is
    always returned, and in `extrude_feature.handle` a resolution failure
    surfaces as `ok = false` with the sorted visible body names as
    `candidates` and no host mutation. -/
theorem resolveBody_default_and_named (bodies : List Body)
    (n : Option String) :
    ((resolveBody bodies n).2 = listVisibleBodies bodies) ∧
    (truthyS n = false →
      ((listVisibleBodies bodies).length = 1 →
        (resolveBody bodies n).1 = (listVisibleBodies bodies).head?) ∧
      ((listVisibleBodies bodies).length ≠ 1 →
        (resolveBody bodies n).1 = none)) ∧
    (∀ s : String, n = some s → s ≠ "" →
      (resolveBody bodies n).1 =
        (listVisibleBodies bodies).find? (fun b => b.name = s)) ∧
    (∀ (req : ExtrudeReq) (doc : Doc) (cf : ℚ → ℚ)
        (nf : Point → Option Point) (host : Host) (d : ℚ),
      req.units = "mm" → (parseFaceSelector req.faceSelector).isSome →
      (req.operation = "new_body" ∨ req.operation = "join" ∨
        req.operation = "cut" ∨ req.operation = "intersect") →
      (req.direction = "normal" ∨ req.direction = "opposite") →
      req.distanceMm = some d → 0 < d → d ≤ 50 →
      (resolveBody doc.bodies req.bodyName).1 = none →
      extrudeHandle req doc cf nf host =
          bodyFailResp req.bodyName (listVisibleBodies doc.bodies) ∧
        (extrudeHandle req doc cf nf host).ok = false ∧
        (extrudeHandle req doc cf nf host).candidates =
          some (sortedNames (listVisibleBodies doc.bodies)) ∧
        (extrudeHandle req doc cf nf host).actions = []) := by
  refine ⟨resolveBody_snd bodies n, fun ht => ⟨fun h1 => ?_, fun h1 => ?_⟩,
    fun s hs hne => ?_, ?_⟩
  · simp [resolveBody, ht, h1]
  · simp [resolveBody, ht, h1]
  · have ht2 : truthyS (some s) = true := by simp [truthyS, hne]
    simp [resolveBody, hs, ht2]
  · intro req doc cf nf host d hu hs hop hdir hd hpos hle hrb
    obtain ⟨sel, hsel⟩ := Option.isSome_iff_exists.mp hs
    have hrbEq : resolveBody doc.bodies req.bodyName =
        (none, listVisibleBodies doc.bodies) :=
      Prod.ext_iff.mpr ⟨hrb, resolveBody_snd doc.bodies req.bodyName⟩
    have hmain : extrudeHandle req doc cf nf host =
        bodyFailResp req.bodyName (listVisibleBodies doc.bodies) := by
      simp [extrudeHandle, extrudeValidate, hu, hsel, hd, hrbEq, hop, hdir,
        not_le.mpr hpos, not_lt.mpr hle]
    obtain ⟨h1, h2, h3⟩ :=
      @bodyFailResp_spec ExtrudeData req.bodyName (listVisibleBodies doc.bodies)
    exact ⟨hmain, by rw [hmain]; exact h1, by rw [hmain]; exact h2,
      by rw [hmain]; exact h3⟩

/-- Witness for C10's amended claim: a named lookup that misses surfaces
    with `ok = false` and the sorted visible names. -/
theorem resolveBody_default_and_named_witness :
    ("Nope" ≠ "" ∧ (resolveBody docBox.bodies (some "Nope")).1 = none) ∧
    (resolveBody [bodyBox] (some "Nope")).1 =
      (listVisibleBodies [bodyBox]).find? (fun b => b.name = "Nope") ∧
    (extrudeHandle reqNope docBox cf0 nf0 hostOk).ok = false ∧
    (extrudeHandle reqNope docBox cf0 nf0 hostOk).candidates =
      some (sortedNames (listVisibleBodies docBox.bodies)) :=
  ⟨⟨by decide, by decide⟩,
   (resolveBody_default_and_named [bodyBox] (some "Nope")).2.2.1 "Nope" rfl
     (by decide),
   ((resolveBody_default_and_named docBox.bodies reqNope.bodyName).2.2.2
     reqNope docBox cf0 nf0 hostOk 10 rfl (by decide) (by decide) (by decide)
     rfl (by decide) (by decide) (by decide)).2.1,
   ((resolveBody_default_and_named docBox.bodies reqNope.bodyName).2.2.2
     reqNope docBox cf0 nf0 hostOk 10 rfl (by decide) (by decide) (by decide)
     rfl (by decide) (by decide) (by decide)).2.2.1⟩

/-- C3.  In `extrude_feature.handle` and `fillet_feature.handle`, a
    guardrail breach after a successful apply yields `ok = false` with the
    guardrail error string and a data payload holding the plan only, a
    delete of the created feature is issued, and a failure of the rollback
    delete or of its recompute never changes the returned response. -/
theorem guardrail_rollback_response
    (req : ExtrudeReq) (doc : Doc) (cf : ℚ → ℚ) (plan : ExtrudePlan)
    (body : Body) (cnt : Nat) (host : Host) (e : GErr)
    (plan2 : FilletPlan) (doc2 : Doc) (host2 : Host) (cflag2 : Bool)
    (e2 : GErr)
    (hA : host.applyFails = false)
    (hC : req.compute = false ∨ host.computeFails = false)
    (hG : guardrailCheck extrudeThresholds host.timingMs (gFaceDelta doc host)
      (gEdgeDelta doc host) (gBodyDelta doc host) = some e)
    (hA2 : host2.applyFails = false)
    (hG2 : guardrailCheck filletThresholds host2.timingMs
      (gFaceDelta doc2 host2) (gEdgeDelta doc2 host2)
      (gBodyDelta doc2 host2) = some e2) :
    ((extrudeApplyPhase req doc cf plan body cnt host).ok = false ∧
     (extrudeApplyPhase req doc cf plan body cnt host).error =
       some (gErrString extrudeThresholds e) ∧
     (extrudeApplyPhase req doc cf plan body cnt host).data =
       some (.planOnly plan) ∧
     (extrudeApplyPhase req doc cf plan body cnt host).actions.any isDelete =
       true ∧
     (∀ df rf, respCore (extrudeApplyPhase req doc cf plan body cnt
         {host with deleteFails := df, rollbackComputeFails := rf}) =
       respCore (extrudeApplyPhase req doc cf plan body cnt host))) ∧
    ((genApply filletConfig cflag2 plan2 doc2 host2).ok = false ∧
     (genApply filletConfig cflag2 plan2 doc2 host2).error =
       some (gErrString filletThresholds e2) ∧
     (genApply filletConfig cflag2 plan2 doc2 host2).data =
       some (.planOnly plan2) ∧
     (genApply filletConfig cflag2 plan2 doc2 host2).actions.any isDelete =
       true ∧
     (∀ df rf, respCore (genApply filletConfig cflag2 plan2 doc2
         {host2 with deleteFails := df, rollbackComputeFails := rf}) =
       respCore (genApply filletConfig cflag2 plan2 doc2 host2))) := by
  have hc' : (req.compute && host.computeFails) = false := by
    rcases hC with h | h <;> simp [h]
  have keyE : ∀ hx : Host, hx.applyFails = false →
      (req.compute && hx.computeFails) = false →
      guardrailCheck extrudeThresholds hx.timingMs (gFaceDelta doc hx)
        (gEdgeDelta doc hx) (gBodyDelta doc hx) = some e →
      extrudeApplyPhase req doc cf plan body cnt hx =
        ⟨false, some (gErrString extrudeThresholds e), some (.planOnly plan),
         none,
         ([HostAction.applyFeature] ++
           (if req.compute then [HostAction.computeAll true] else [])) ++
           extrudeRollbackActs req.compute hx⟩ := by
    intro hx h1 h2 h3
    simp [extrudeApplyPhase, h1, h2, h3]
  have keyF : ∀ hx : Host, hx.applyFails = false →
      guardrailCheck filletThresholds hx.timingMs (gFaceDelta doc2 hx)
        (gEdgeDelta doc2 hx) (gBodyDelta doc2 hx) = some e2 →
      genApply filletConfig cflag2 plan2 doc2 hx =
        ⟨false, some (gErrString filletThresholds e2),
         some (.planOnly plan2), none,
         ([HostAction.applyFeature] ++
           (if (!filletConfig.computeGated || cflag2) then
             [HostAction.computeAll (!hx.computeFails)] else [])) ++
           ([HostAction.deleteFeature (!hx.deleteFails)] ++
             (if (!hx.deleteFails) &&
                 (!filletConfig.rollbackComputeGated || cflag2) then
               [HostAction.computeAll (!hx.rollbackComputeFails)]
             else []))⟩ := by
    intro hx h1 h3
    simp [genApply, h1, h3, filletConfig]
  refine ⟨⟨?_, ?_, ?_, ?_, ?_⟩, ⟨?_, ?_, ?_, ?_, ?_⟩⟩
  · rw [keyE host hA hc' hG]
  · rw [keyE host hA hc' hG]
  · rw [keyE host hA hc' hG]
  · rw [keyE host hA hc' hG]
    cases req.compute <;>
      simp [extrudeRollbackActs, isDelete, List.any_append]
  · intro df rf
    rw [keyE {host with deleteFails := df, rollbackComputeFails := rf}
        hA hc' hG,
      keyE host hA hc' hG]
    rfl
  · rw [keyF host2 hA2 hG2]
  · rw [keyF host2 hA2 hG2]
  · rw [keyF host2 hA2 hG2]
  · rw [keyF host2 hA2 hG2]
    simp [isDelete, List.any_append]
  · intro df rf
    rw [keyF {host2 with deleteFails := df, rollbackComputeFails := rf}
        hA2 hG2,
      keyF host2 hA2 hG2]
    rfl

/-- Witness for C3: a concrete apply that breaches the time guardrail on
    the extrude and fillet fixtures, with the rollback delete issued. -/
theorem guardrail_rollback_response_witness :
    hostSlow.applyFails = false ∧ hostSlow.computeFails = false ∧
    guardrailCheck extrudeThresholds hostSlow.timingMs
      (gFaceDelta docBox hostSlow) (gEdgeDelta docBox hostSlow)
      (gBodyDelta docBox hostSlow) = some .time ∧
    (extrudeApplyPhase reqExtrude50 docBox cf0 planX bodyBox 1 hostSlow).ok =
      false ∧
    (extrudeApplyPhase reqExtrude50 docBox cf0 planX bodyBox 1
      hostSlow).actions.any isDelete = true ∧
    (genApply filletConfig true planF docBox hostSlow2).ok = false ∧
    (genApply filletConfig true planF docBox hostSlow2).error =
      some (gErrString filletThresholds .time) :=
  ⟨rfl, rfl, by decide,
   (guardrail_rollback_response reqExtrude50 docBox cf0 planX bodyBox 1
     hostSlow .time planF docBox hostSlow2 true .time rfl (Or.inr rfl)
     (by decide) rfl (by decide)).1.1,
   (guardrail_rollback_response reqExtrude50 docBox cf0 planX bodyBox 1
     hostSlow .time planF docBox hostSlow2 true .time rfl (Or.inr rfl)
     (by decide) rfl (by decide)).1.2.2.2.1,
   (guardrail_rollback_response reqExtrude50 docBox cf0 planX bodyBox 1
     hostSlow .time planF docBox hostSlow2 true .time rfl (Or.inr rfl)
     (by decide) rfl (by decide)).2.1,
   (guardrail_rollback_response reqExtrude50 docBox cf0 planX bodyBox 1
     hostSlow .time planF docBox hostSlow2 true .time rfl (Or.inr rfl)
     (by decide) rfl (by decide)).2.2.1⟩

/-- C5 counterexample.  In `extrude_feature.handle` a recompute failure
    after a successful apply is fatal: the handler raises internally,
    deletes the created feature and returns `ok = false` with an
    apply-failure error — not `ok = true` with `compute.ran = false`. -/
theorem extrude_recompute_failure_is_fatal :
    (extrudeHandle reqExtrude50 docBox cf0 nf0 hostComputeFail).ok = false ∧
    (extrudeHandle reqExtrude50 docBox cf0 nf0 hostComputeFail).error =
      some "Extrude failed: Design compute failed" ∧
    (extrudeHandle reqExtrude50 docBox cf0 nf0
      hostComputeFail).actions.any isDelete = true := by
  refine ⟨?_, ?_, ?_⟩ <;> decide

/-- C5 amended.  In every mutating command except the face extrude, a
    recompute failure after a successful apply is swallowed: when the
    guardrails pass the command still returns `ok = true`, records
    `compute.ran = false` in the apply payload and never deletes the
    feature.  In `extrude_feature.handle` the same failure is fatal: the
    created feature is deleted and the command returns `ok = false` with
    `"Extrude failed: Design compute failed"` and the plan only. -/
theorem recompute_failure_policy
    (cfg : GenConfig) {P : Type} (plan : P) (cflag : Bool) (doc : Doc)
    (host : Host) (req : ExtrudeReq) (doc2 : Doc) (cf : ℚ → ℚ)
    (plan2 : ExtrudePlan) (body : Body) (cnt : Nat) (host2 : Host)
    (hA : host.applyFails = false) (hCF : host.computeFails = true)
    (hG : guardrailCheck cfg.t
      (if cfg.recheckTiming then host.timingGuardMs else host.timingMs)
      (gFaceDelta doc host) (gEdgeDelta doc host) (gBodyDelta doc host) =
      none)
    (hA2 : host2.applyFails = false) (hC2 : req.compute = true)
    (hCF2 : host2.computeFails = true) :
    ((genApply cfg cflag plan doc host).ok = true ∧
     (genApply cfg cflag plan doc host).error = none ∧
     (genApply cfg cflag plan doc host).actions.any isDelete = false ∧
     (genApply cfg cflag plan doc host).data =
       some (.applied plan
         ⟨host.featId, host.featName, false, host.timingMs⟩)) ∧
    ((extrudeApplyPhase req doc2 cf plan2 body cnt host2).ok = false ∧
     (extrudeApplyPhase req doc2 cf plan2 body cnt host2).error =
       some "Extrude failed: Design compute failed" ∧
     (extrudeApplyPhase req doc2 cf plan2 body cnt host2).data =
       some (.planOnly plan2) ∧
     (extrudeApplyPhase req doc2 cf plan2 body cnt
       host2).actions.any isDelete = true) := by
  have hgen : genApply cfg cflag plan doc host =
      ⟨true, none,
       some (.applied plan ⟨host.featId, host.featName, false, host.timingMs⟩),
       none,
       [HostAction.applyFeature] ++
         (if (!cfg.computeGated || cflag) then [HostAction.computeAll false]
          else [])⟩ := by
    simp [genApply, hA, hCF, hG]
  have hext : extrudeApplyPhase req doc2 cf plan2 body cnt host2 =
      ⟨false, some "Extrude failed: Design compute failed",
       some (.planOnly plan2), none,
       [.applyFeature, .computeAll false,
        .deleteFeature (!host2.deleteFails)]⟩ := by
    simp [extrudeApplyPhase, hA2, hC2, hCF2]
  refine ⟨⟨by rw [hgen], by rw [hgen], ?_, by rw [hgen]⟩,
    by rw [hext], by rw [hext], by rw [hext],
    by rw [hext]; simp [isDelete]⟩
  rw [hgen]
  cases (!cfg.computeGated || cflag) <;> simp [isDelete]

/-- Witness for C5's amended claim: a failing recompute on the fillet
    fixture is non-fatal with `compute.ran = false`, while the same failure
    on the extrude fixture is fatal. -/
theorem recompute_failure_policy_witness :
    hostComputeFail.applyFails = false ∧
    hostComputeFail.computeFails = true ∧
    (genApply filletConfig true planF docBox hostComputeFail).ok = true ∧
    (genApply filletConfig true planF docBox
      hostComputeFail).actions.any isDelete = false ∧
    (extrudeApplyPhase reqExtrude50 docBox cf0 planX bodyBox 1
      hostComputeFail).ok = false :=
  ⟨rfl, rfl,
   (recompute_failure_policy filletConfig planF true docBox hostComputeFail
     reqExtrude50 docBox cf0 planX bodyBox 1 hostComputeFail rfl rfl
     (by decide) rfl rfl rfl).1.1,
   (recompute_failure_policy filletConfig planF true docBox hostComputeFail
     reqExtrude50 docBox cf0 planX bodyBox 1 hostComputeFail rfl rfl
     (by decide) rfl rfl rfl).1.2.2.1,
   (recompute_failure_policy filletConfig planF true docBox hostComputeFail
     reqExtrude50 docBox cf0 planX bodyBox 1 hostComputeFail rfl rfl
     (by decide) rfl rfl rfl).2.1⟩

/-- C6.  For a `new_body` extrude that passed its guardrails, the
    before/after visible-body identity sets are diffed: exactly one new
    identity gives `ok = true` with `measure_after` targeting the new body
    and `measure_after.source_body` carrying the source body's own
    measurement; zero or several new identities give `ok = false` with the
    ambiguity error, the plan only, and a rollback delete of the feature. -/
theorem new_body_disambiguation
    (req : ExtrudeReq) (doc : Doc) (cf : ℚ → ℚ) (plan : ExtrudePlan)
    (body : Body) (cnt : Nat) (host : Host)
    (hA : host.applyFails = false)
    (hC : req.compute = false ∨ host.computeFails = false)
    (hG : guardrailCheck extrudeThresholds host.timingMs (gFaceDelta doc host)
      (gEdgeDelta doc host) (gBodyDelta doc host) = none)
    (hOp : req.operation = "new_body") :
    (∀ nb, newBodyCandidates (listVisibleBodies doc.bodies)
        (listVisibleBodies host.afterBodies) = [nb] →
      (extrudeApplyPhase req doc cf plan body cnt host).ok = true ∧
      (extrudeApplyPhase req doc cf plan body cnt host).error = none ∧
      (extrudeApplyPhase req doc cf plan body cnt host).data =
        some (.fullData plan
          ⟨host.featId, host.featName, req.compute, host.timingMs⟩
          (bodyMeasurement cf body)
          ⟨bodyMeasurement cf nb, some (bodyMeasurement cf host.sourceAfter)⟩
          (mkVerify req.operation true (bodyMeasurement cf body)
            ⟨bodyMeasurement cf nb,
             some (bodyMeasurement cf host.sourceAfter)⟩
            req.tolMm req.tolPct)
          cnt)) ∧
    (newBodyCandidates (listVisibleBodies doc.bodies)
        (listVisibleBodies host.afterBodies) = [] →
      (extrudeApplyPhase req doc cf plan body cnt host).ok = false ∧
      (extrudeApplyPhase req doc cf plan body cnt host).error =
        some "No new body created." ∧
      (extrudeApplyPhase req doc cf plan body cnt host).data =
        some (.planOnly plan) ∧
      (extrudeApplyPhase req doc cf plan body cnt
        host).actions.any isDelete = true) ∧
    (∀ nb1 nb2 rest, newBodyCandidates (listVisibleBodies doc.bodies)
        (listVisibleBodies host.afterBodies) = nb1 :: nb2 :: rest →
      (extrudeApplyPhase req doc cf plan body cnt host).ok = false ∧
      (extrudeApplyPhase req doc cf plan body cnt host).error =
        some "Multiple bodies created; guardrail failure." ∧
      (extrudeApplyPhase req doc cf plan body cnt host).data =
        some (.planOnly plan) ∧
      (extrudeApplyPhase req doc cf plan body cnt
        host).actions.any isDelete = true) := by
  have hc' : (req.compute && host.computeFails) = false := by
    rcases hC with h | h <;> simp [h]
  refine ⟨fun nb hnb => ?_, fun hnb => ?_, fun nb1 nb2 rest hnb => ?_⟩
  · have hred : extrudeApplyPhase req doc cf plan body cnt host =
        extrudeSuccess req cf plan (bodyMeasurement cf body) cnt host
          (some nb)
          ([HostAction.applyFeature] ++
            (if req.compute then [HostAction.computeAll true] else [])) := by
      simp [extrudeApplyPhase, hA, hc', hG, hOp, hnb]
    rw [hred]
    exact ⟨rfl, rfl, rfl⟩
  · have hred : extrudeApplyPhase req doc cf plan body cnt host =
        ⟨false, some "No new body created.", some (.planOnly plan), none,
         ([HostAction.applyFeature] ++
           (if req.compute then [HostAction.computeAll true] else [])) ++
           extrudeRollbackActs req.compute host⟩ := by
      simp [extrudeApplyPhase, hA, hc', hG, hOp, hnb]
    rw [hred]
    refine ⟨rfl, rfl, rfl, ?_⟩
    cases req.compute <;>
      simp [extrudeRollbackActs, isDelete, List.any_append]
  · have hred : extrudeApplyPhase req doc cf plan body cnt host =
        ⟨false, some "Multiple bodies created; guardrail failure.",
         some (.planOnly plan), none,
         ([HostAction.applyFeature] ++
           (if req.compute then [HostAction.computeAll true] else [])) ++
           extrudeRollbackActs req.compute host⟩ := by
      simp [extrudeApplyPhase, hA, hc', hG, hOp, hnb]
    rw [hred]
    refine ⟨rfl, rfl, rfl, ?_⟩
    cases req.compute <;>
      simp [extrudeRollbackActs, isDelete, List.any_append]

/-- Witness for C6 on the fixtures: one new body succeeds, zero and two new
    identities roll back with the ambiguity errors. -/
theorem new_body_disambiguation_witness :
    newBodyCandidates (listVisibleBodies docBox.bodies)
      (listVisibleBodies hostNewBody.afterBodies) = [bodyNew] ∧
    (extrudeApplyPhase reqNewBody docBox cf0 planX bodyBox 1 hostNewBody).ok =
      true ∧
    newBodyCandidates (listVisibleBodies docBox.bodies)
      (listVisibleBodies hostOk.afterBodies) = [] ∧
    (extrudeApplyPhase reqNewBody docBox cf0 planX bodyBox 1 hostOk).error =
      some "No new body created." ∧
    newBodyCandidates (listVisibleBodies docTwo.bodies)
      (listVisibleBodies hostTwoNew.afterBodies) = [bodyNew, bodyNew2] ∧
    (extrudeApplyPhase reqNewBody docTwo cf0 planX bodyBox 1
      hostTwoNew).error = some "Multiple bodies created; guardrail failure."
    :=
  ⟨by decide,
   ((new_body_disambiguation reqNewBody docBox cf0 planX bodyBox 1
     hostNewBody rfl (Or.inr rfl) (by decide) rfl).1 bodyNew (by decide)).1,
   by decide,
   ((new_body_disambiguation reqNewBody docBox cf0 planX bodyBox 1 hostOk
     rfl (Or.inr rfl) (by decide) rfl).2.1 (by decide)).2.1,
   by decide,
   ((new_body_disambiguation reqNewBody docTwo cf0 planX bodyBox 1
     hostTwoNew rfl (Or.inr rfl) (by decide) rfl).2.2 bodyNew bodyNew2 []
     (by decide)).2.1⟩

/-- C7.  The extrude command accepts `distance_mm` equal to
    `MAX_EXTRUDE_MM` (50.0) and rejects any strictly greater value with the
    `InvalidInput` bound error, before any host mutation (empty action
    log); the fixture run at exactly 50.0 completes with `ok = true`. -/
theorem extrude_distance_bound
    (req : ExtrudeReq) (doc : Doc) (cf : ℚ → ℚ) (nf : Point → Option Point)
    (host : Host) (d : ℚ)
    (hu : req.units = "mm") (hs : (parseFaceSelector req.faceSelector).isSome)
    (hop : req.operation = "new_body" ∨ req.operation = "join" ∨
      req.operation = "cut" ∨ req.operation = "intersect")
    (hdir : req.direction = "normal" ∨ req.direction = "opposite")
    (hd : req.distanceMm = some d) (hover : 50 < d) :
    (extrudeHandle req doc cf nf host =
       errResp "distance_mm exceeds MAX_EXTRUDE_MM (50.0)" ∧
     (extrudeHandle req doc cf nf host).actions = []) ∧
    (extrudeHandle reqExtrude50 docBox cf0 nf0 hostOk).ok = true ∧
    (extrudeHandle reqExtrude50 docBox cf0 nf0 hostOk).error = none := by
  have hpos : ¬(d ≤ 0) := not_le.mpr (lt_trans (by norm_num) hover)
  obtain ⟨sel, hsel⟩ := Option.isSome_iff_exists.mp hs
  have hmain : extrudeHandle req doc cf nf host =
      errResp "distance_mm exceeds MAX_EXTRUDE_MM (50.0)" := by
    simp [extrudeHandle, extrudeValidate, hu, hsel, hop, hdir, hd, hpos,
      hover]
  exact ⟨⟨hmain, by rw [hmain]; rfl⟩, by decide, by decide⟩

theorem extrudeValidate_error_actions (req : ExtrudeReq) (doc : Doc)
    (cf : ℚ → ℚ) (nf : Point → Option Point) (r : Resp ExtrudeData)
    (h : extrudeValidate req doc cf nf = .error r) : r.actions = [] := by
  unfold extrudeValidate at h
  repeat' split at h
  all_goals
    first
      | exact Except.noConfusion h
      | (injection h with h2; subst h2; rfl)
      | (injection h with h2; subst h2;
         exact (@bodyFailResp_spec ExtrudeData _ _).2.2)

theorem filletSelectTail_error_actions (req : FilletReq) (cf : ℚ → ℚ)
    (r0 : ℚ) (sel : EdgeSel) (body : Body) (pt : Option Point)
    (r : Resp (GenData FilletPlan))
    (h : filletSelectTail req cf r0 sel body pt = .error r) :
    r.actions = [] := by
  unfold filletSelectTail at h
  repeat' split at h
  all_goals
    first
      | exact Except.noConfusion h
      | (injection h with h2; subst h2; rfl)

theorem filletValidate_error_actions (req : FilletReq) (doc : Doc)
    (cf : ℚ → ℚ) (r : Resp (GenData FilletPlan))
    (h : filletValidate req doc cf = .error r) : r.actions = [] := by
  unfold filletValidate at h
  repeat' split at h
  all_goals
    first
      | exact Except.noConfusion h
      | (injection h with h2; subst h2; rfl)
      | (injection h with h2; subst h2;
         exact (@bodyFailResp_spec (GenData FilletPlan) _ _).2.2)
      | exact filletSelectTail_error_actions _ _ _ _ _ _ _ h

theorem holeResolveTail_error_actions (req : HoleReq) (doc : Doc)
    (cf : ℚ → ℚ) (nf : Point → Option Point) (center : Point) (dia : ℚ)
    (depth : Option ℚ) (r : Resp (GenData HolePlan))
    (h : holeResolveTail req doc cf nf center dia depth = .error r) :
    r.actions = [] := by
  unfold holeResolveTail at h
  repeat' split at h
  all_goals
    first
      | exact Except.noConfusion h
      | (injection h with h2; subst h2; rfl)
      | (injection h with h2; subst h2;
         exact (@bodyFailResp_spec (GenData HolePlan) _ _).2.2)

theorem holeValidate_error_actions (req : HoleReq) (doc : Doc)
    (cf : ℚ → ℚ) (nf : Point → Option Point) (r : Resp (GenData HolePlan))
    (h : holeValidate req doc cf nf = .error r) : r.actions = [] := by
  unfold holeValidate at h
  repeat' split at h
  all_goals
    first
      | exact Except.noConfusion h
      | (injection h with h2; subst h2; rfl)
      | exact holeResolveTail_error_actions _ _ _ _ _ _ _ _ h

theorem profileResolveTail_error_actions (req : ProfileReq) (doc : Doc)
    (idx : Int) (r : Resp (GenData ProfilePlan))
    (h : profileResolveTail req doc idx = .error r) : r.actions = [] := by
  unfold profileResolveTail at h
  repeat' split at h
  all_goals
    first
      | exact Except.noConfusion h
      | (injection h with h2; subst h2; rfl)

theorem profileValidate_error_actions (req : ProfileReq) (doc : Doc)
    (r : Resp (GenData ProfilePlan))
    (h : profileValidate req doc = .error r) : r.actions = [] := by
  unfold profileValidate at h
  repeat' split at h
  all_goals
    first
      | exact Except.noConfusion h
      | (injection h with h2; subst h2; rfl)
      | exact profileResolveTail_error_actions _ _ _ _ h

theorem shellValidate_error_actions (req : ShellReq) (doc : Doc)
    (cf : ℚ → ℚ) (nf : Point → Option Point) (r : Resp (GenData ShellPlan))
    (h : shellValidate req doc cf nf = .error r) : r.actions = [] := by
  unfold shellValidate at h
  repeat' split at h
  all_goals
    first
      | exact Except.noConfusion h
      | (injection h with h2; subst h2; rfl)
      | (injection h with h2; subst h2;
         exact (@bodyFailResp_spec (GenData ShellPlan) _ _).2.2)

theorem resolveBase_error_actions {P : Type} (fid bn : Option String)
    (doc : Doc) (r : Resp (GenData P))
    (h : @resolveBase P fid bn doc = .error r) : r.actions = [] := by
  unfold resolveBase at h
  repeat' split at h
  all_goals
    first
      | exact Except.noConfusion h
      | (injection h with h2; subst h2; rfl)
      | (injection h with h2; subst h2;
         exact (@bodyFailResp_spec (GenData P) _ _).2.2)

theorem mirrorValidate_error_actions (req : MirrorReq) (doc : Doc)
    (r : Resp (GenData MirrorPlan))
    (h : mirrorValidate req doc = .error r) : r.actions = [] := by
  unfold mirrorValidate at h
  repeat' split at h
  all_goals
    first
      | exact Except.noConfusion h
      | (injection h with h2; subst h2; rfl)
      | (injection h with h2; subst h2; rename_i heq2;
         exact resolveBase_error_actions _ _ _ _ heq2)

theorem patternValidate_error_actions (req : PatternReq) (doc : Doc)
    (r : Resp (GenData PatternPlan))
    (h : patternValidate req doc = .error r) : r.actions = [] := by
  unfold patternValidate at h
  repeat' split at h
  all_goals
    first
      | exact Except.noConfusion h
      | (injection h with h2; subst h2; rfl)
      | (injection h with h2; subst h2; rename_i heq2;
         exact resolveBase_error_actions _ _ _ _ heq2)

theorem revolveAxis_error_actions (req : RevolveReq) (doc : Doc)
    (cf : ℚ → ℚ) (host : Host) (r : Resp (GenData RevolvePlan))
    (h : revolveAxis req doc cf host = .error r) : r.actions = [] := by
  unfold revolveAxis at h
  repeat' split at h
  all_goals
    first
      | exact Except.noConfusion h
      | (injection h with h2; subst h2; rfl)
      | (injection h with h2; subst h2;
         exact (@bodyFailResp_spec (GenData RevolvePlan) _ _).2.2)

theorem revolveValidate_error_actions (req : RevolveReq) (doc : Doc)
    (cf : ℚ → ℚ) (host : Host) (r : Resp (GenData RevolvePlan))
    (h : revolveValidate req doc cf host = .error r) : r.actions = [] := by
  unfold revolveValidate at h
  repeat' split at h
  all_goals
    first
      | exact Except.noConfusion h
      | (injection h with h2; subst h2; rfl)
      | (injection h with h2; subst h2; rename_i heq2;
         exact revolveAxis_error_actions _ _ _ _ _ heq2)

theorem revolveAxis_host_free (req : RevolveReq) (doc : Doc) (cf : ℚ → ℚ)
    (h1 h2 : Host)
    (hax : truthyS req.edgeId = true ∨ truthyS req.axisSelector = true ∨
      ∀ p1 p2, req.axisLineMm ≠ .line p1 p2) :
    revolveAxis req doc cf h1 = revolveAxis req doc cf h2 ∧
    (∀ ap acts, revolveAxis req doc cf h1 = .ok (ap, acts) → acts = []) := by
  by_cases he : truthyS req.edgeId
  · constructor
    · simp [revolveAxis, he]
    · intro ap acts h
      unfold revolveAxis at h
      rw [if_pos he] at h
      split at h
      · exact Except.noConfusion h
      · injection h with h3; cases h3; rfl
  · by_cases hs : truthyS req.axisSelector
    · constructor
      · simp [revolveAxis, he, hs]
      · intro ap acts h
        unfold revolveAxis at h
        rw [if_neg he, if_pos hs] at h
        repeat' split at h
        all_goals
          first
            | exact Except.noConfusion h
            | (injection h with h3; cases h3; rfl)
    · rcases hax with hax | hax | hax
      · exact absurd hax he
      · exact absurd hax hs
      · cases hal : req.axisLineMm with
        | line p1 p2 => exact absurd hal (hax p1 p2)
        | absent => exact ⟨by simp [revolveAxis, he, hs, hal], by
            intro ap acts h
            unfold revolveAxis at h
            simp [he, hs, hal, truthyLine] at h⟩
        | notDict => exact ⟨by simp [revolveAxis, he, hs, hal], by
            intro ap acts h
            unfold revolveAxis at h
            simp [he, hs, hal, truthyLine] at h⟩
        | missingPoints => exact ⟨by simp [revolveAxis, he, hs, hal], by
            intro ap acts h
            unfold revolveAxis at h
            simp [he, hs, hal, truthyLine] at h⟩
        | nonNumeric => exact ⟨by simp [revolveAxis, he, hs, hal], by
            intro ap acts h
            unfold revolveAxis at h
            simp [he, hs, hal, truthyLine] at h⟩

theorem revolveValidate_host_free (req : RevolveReq) (doc : Doc)
    (cf : ℚ → ℚ) (h1 h2 : Host)
    (hax : truthyS req.edgeId = true ∨ truthyS req.axisSelector = true ∨
      ∀ p1 p2, req.axisLineMm ≠ .line p1 p2) :
    revolveValidate req doc cf h1 = revolveValidate req doc cf h2 ∧
    (∀ pl acts, revolveValidate req doc cf h1 = .ok (pl, acts) →
      acts = []) := by
  obtain ⟨heq, hacts⟩ := revolveAxis_host_free req doc cf h1 h2 hax
  constructor
  · unfold revolveValidate
    rw [heq]
  · intro pl acts h
    unfold revolveValidate at h
    repeat' split at h
    all_goals
      first
        | exact Except.noConfusion h
        | (injection h with h3; cases h3; rename_i heq2; exact hacts _ _ heq2)

/-- C9 counterexample.  A preview revolve request that supplies
    `axis_line_mm` creates a construction axis in the document before
    returning its preview: the handler does not return before every host
    mutation. -/
theorem revolve_preview_creates_axis :
    reqRevLine.preview = true ∧
    revolveHandle reqRevLine docSketch cf0 hostOk =
      ⟨true, none, some (.previewData revLinePlan), none,
       [.createConstructionAxis]⟩ ∧
    (revolveHandle reqRevLine docSketch cf0 hostOk).actions ≠ [] := by
  refine ⟨rfl, by decide, by decide⟩

/-- C9 amended.  For every mutating command except the revolve command's
    `axis_line_mm` path, a preview request returns before any host
    mutation: the action log is empty, and the response — in particular the
    plan — does not depend on any host-call outcome, so identical preview
    requests against the same document produce identical plans.  (In the
    excluded path, revolve creates a construction axis first; enumerated
    body/face/edge counts are still unchanged.) -/
theorem preview_is_pure
    (reqE : ExtrudeReq) (docE : Doc) (cfE : ℚ → ℚ)
    (nfE : Point → Option Point) (hE1 hE2 : Host)
    (reqF : FilletReq) (docF : Doc) (cfF : ℚ → ℚ) (hF1 hF2 : Host)
    (reqH : HoleReq) (docH : Doc) (cfH : ℚ → ℚ)
    (nfH : Point → Option Point) (hH1 hH2 : Host)
    (reqP : ProfileReq) (docP : Doc) (hP1 hP2 : Host)
    (reqS : ShellReq) (docS : Doc) (cfS : ℚ → ℚ)
    (nfS : Point → Option Point) (hS1 hS2 : Host)
    (reqM : MirrorReq) (docM : Doc) (hM1 hM2 : Host)
    (reqT : PatternReq) (docT : Doc) (hT1 hT2 : Host)
    (reqR : RevolveReq) (docR : Doc) (cfR : ℚ → ℚ) (hR1 hR2 : Host)
    (hpE : reqE.preview = true) (hpF : reqF.preview = true)
    (hpH : reqH.preview = true) (hpP : reqP.preview = true)
    (hpS : reqS.preview = true) (hpM : reqM.preview = true)
    (hpT : reqT.preview = true) (hpR : reqR.preview = true)
    (haxR : truthyS reqR.edgeId = true ∨ truthyS reqR.axisSelector = true ∨
      ∀ p1 p2, reqR.axisLineMm ≠ .line p1 p2) :
    ((extrudeHandle reqE docE cfE nfE hE1).actions = [] ∧
     extrudeHandle reqE docE cfE nfE hE1 =
       extrudeHandle reqE docE cfE nfE hE2) ∧
    ((filletHandle reqF docF cfF hF1).actions = [] ∧
     filletHandle reqF docF cfF hF1 = filletHandle reqF docF cfF hF2) ∧
    ((holeHandle reqH docH cfH nfH hH1).actions = [] ∧
     holeHandle reqH docH cfH nfH hH1 = holeHandle reqH docH cfH nfH hH2) ∧
    ((profileHandle reqP docP hP1).actions = [] ∧
     profileHandle reqP docP hP1 = profileHandle reqP docP hP2) ∧
    ((shellHandle reqS docS cfS nfS hS1).actions = [] ∧
     shellHandle reqS docS cfS nfS hS1 = shellHandle reqS docS cfS nfS hS2) ∧
    ((mirrorHandle reqM docM hM1).actions = [] ∧
     mirrorHandle reqM docM hM1 = mirrorHandle reqM docM hM2) ∧
    ((patternHandle reqT docT hT1).actions = [] ∧
     patternHandle reqT docT hT1 = patternHandle reqT docT hT2) ∧
    ((revolveHandle reqR docR cfR hR1).actions = [] ∧
     revolveHandle reqR docR cfR hR1 = revolveHandle reqR docR cfR hR2) := by
  refine ⟨?_, ?_, ?_, ?_, ?_, ?_, ?_, ?_⟩
  · cases hv : extrudeValidate reqE docE cfE nfE with
    | error r =>
      exact ⟨by simp [extrudeHandle, hv,
          extrudeValidate_error_actions _ _ _ _ _ hv],
        by simp [extrudeHandle, hv]⟩
    | ok v =>
      obtain ⟨plan, body, cnt⟩ := v
      exact ⟨by simp [extrudeHandle, hv, hpE],
        by simp [extrudeHandle, hv, hpE]⟩
  · cases hv : filletValidate reqF docF cfF with
    | error r =>
      exact ⟨by simp [filletHandle, hv,
          filletValidate_error_actions _ _ _ _ hv],
        by simp [filletHandle, hv]⟩
    | ok plan =>
      exact ⟨by simp [filletHandle, hv, hpF],
        by simp [filletHandle, hv, hpF]⟩
  · cases hv : holeValidate reqH docH cfH nfH with
    | error r =>
      exact ⟨by simp [holeHandle, hv,
          holeValidate_error_actions _ _ _ _ _ hv],
        by simp [holeHandle, hv]⟩
    | ok plan =>
      exact ⟨by simp [holeHandle, hv, hpH],
        by simp [holeHandle, hv, hpH]⟩
  · cases hv : profileValidate reqP docP with
    | error r =>
      exact ⟨by simp [profileHandle, hv,
          profileValidate_error_actions _ _ _ hv],
        by simp [profileHandle, hv]⟩
    | ok plan =>
      exact ⟨by simp [profileHandle, hv, hpP],
        by simp [profileHandle, hv, hpP]⟩
  · cases hv : shellValidate reqS docS cfS nfS with
    | error r =>
      exact ⟨by simp [shellHandle, hv,
          shellValidate_error_actions _ _ _ _ _ hv],
        by simp [shellHandle, hv]⟩
    | ok plan =>
      exact ⟨by simp [shellHandle, hv, hpS],
        by simp [shellHandle, hv, hpS]⟩
  · cases hv : mirrorValidate reqM docM with
    | error r =>
      exact ⟨by simp [mirrorHandle, hv,
          mirrorValidate_error_actions _ _ _ hv],
        by simp [mirrorHandle, hv]⟩
    | ok plan =>
      exact ⟨by simp [mirrorHandle, hv, hpM],
        by simp [mirrorHandle, hv, hpM]⟩
  · cases hv : patternValidate reqT docT with
    | error r =>
      exact ⟨by simp [patternHandle, hv,
          patternValidate_error_actions _ _ _ hv],
        by simp [patternHandle, hv]⟩
    | ok v =>
      obtain ⟨plan, isRect⟩ := v
      exact ⟨by simp [patternHandle, hv, hpT],
        by simp [patternHandle, hv, hpT]⟩
  · obtain ⟨heq, hacts⟩ := revolveValidate_host_free reqR docR cfR hR1 hR2
      haxR
    cases hv : revolveValidate reqR docR cfR hR1 with
    | error r =>
      have hv2 : revolveValidate reqR docR cfR hR2 = .error r :=
        heq.symm.trans hv
      exact ⟨by simp [revolveHandle, hv,
          revolveValidate_error_actions _ _ _ _ _ hv],
        by simp [revolveHandle, hv, hv2]⟩
    | ok v =>
      obtain ⟨plan, preActs⟩ := v
      have hpre : preActs = [] := hacts plan preActs hv
      subst hpre
      have hv2 : revolveValidate reqR docR cfR hR2 = .ok (plan, []) :=
        heq.symm.trans hv
      exact ⟨by simp [revolveHandle, hv, hpR],
        by simp [revolveHandle, hv, hv2, hpR]⟩

/-- Witness for C9's amended claim: a concrete preview request on each
    fixture, evaluated against two different host behaviours. -/
theorem preview_is_pure_witness :
    reqExtrudePrev.preview = true ∧
    (extrudeHandle reqExtrudePrev docBox cf0 nf0 hostOk).actions = [] ∧
    extrudeHandle reqExtrudePrev docBox cf0 nf0 hostOk =
      extrudeHandle reqExtrudePrev docBox cf0 nf0 hostSlow ∧
    (revolveHandle reqR0 docSketch cf0 hostOk).actions = [] :=
  ⟨rfl,
   (preview_is_pure reqExtrudePrev docBox cf0 nf0 hostOk hostSlow
     reqF0 docBox cf0 hostOk hostOk reqH0 docBox cf0 nf0 hostOk hostOk
     reqP0 docBox hostOk hostOk reqS0 docBox cf0 nf0 hostOk hostOk
     reqM0 docBox hostOk hostOk reqT0 docBox hostOk hostOk
     reqR0 docSketch cf0 hostOk hostOk rfl rfl rfl rfl rfl rfl rfl rfl
     (Or.inr (Or.inr (fun _ _ h => LineArg.noConfusion h)))).1.1,
   (preview_is_pure reqExtrudePrev docBox cf0 nf0 hostOk hostSlow
     reqF0 docBox cf0 hostOk hostOk reqH0 docBox cf0 nf0 hostOk hostOk
     reqP0 docBox hostOk hostOk reqS0 docBox cf0 nf0 hostOk hostOk
     reqM0 docBox hostOk hostOk reqT0 docBox hostOk hostOk
     reqR0 docSketch cf0 hostOk hostOk rfl rfl rfl rfl rfl rfl rfl rfl
     (Or.inr (Or.inr (fun _ _ h => LineArg.noConfusion h)))).1.2,
   (preview_is_pure reqExtrudePrev docBox cf0 nf0 hostOk hostSlow
     reqF0 docBox cf0 hostOk hostOk reqH0 docBox cf0 nf0 hostOk hostOk
     reqP0 docBox hostOk hostOk reqS0 docBox cf0 nf0 hostOk hostOk
     reqM0 docBox hostOk hostOk reqT0 docBox hostOk hostOk
     reqR0 docSketch cf0 hostOk hostOk rfl rfl rfl rfl rfl rfl rfl rfl
     (Or.inr (Or.inr (fun _ _ h => LineArg.noConfusion h)))).2.2.2.2.2.2.2.1⟩

/-- Witness for C7: `50.0 + 1e-6` is rejected with the bound error and no
    host action. -/
theorem extrude_distance_bound_witness :
    ((50 : ℚ) < oneMicroOver) ∧
    reqExtrudeOver.distanceMm = some oneMicroOver ∧
    extrudeHandle reqExtrudeOver docBox cf0 nf0 hostOk =
      errResp "distance_mm exceeds MAX_EXTRUDE_MM (50.0)" :=
  ⟨by decide, rfl,
   (extrude_distance_bound reqExtrudeOver docBox cf0 nf0 hostOk oneMicroOver
     rfl (by decide) (by decide) (by decide) rfl (by decide)).1.1⟩

end FusionCore
